import Mathlib

/-!
Verification of the GQL wire-protocol runtime (server and client library).

The development shallowly embeds the Rust sources: pure functions become Lean
functions, the stateful service handlers become explicit state-passing
functions over registry states, asynchronous backend calls become oracle
arguments (the value the backend returned) plus an explicit effect log, and
the result stream becomes a list of items.  Machine integers only travel
through the code unchanged (no arithmetic is performed on them), so i64/i32
become Int, u64/u32/u8 become Nat and an f64 is carried as its opaque bit
pattern.
-/

namespace Gwp

/-! ## Status codes (src/status.rs) -/

/-- Successful completion. -/
def SUCCESS : String := "00000"

/-- Successful completion with omitted result (DDL, session commands). -/
def OMITTED_RESULT : String := "00001"

/-- No data - query matched nothing. -/
def NO_DATA : String := "02000"

/-- Data exception (no subclass). -/
def DATA_EXCEPTION : String := "22000"

/-- Invalid transaction state (no subclass). -/
def INVALID_TRANSACTION_STATE : String := "25000"

/-- Active GQL-transaction already exists. -/
def ACTIVE_TRANSACTION : String := "25G01"

/-- Transaction rollback. -/
def TRANSACTION_ROLLBACK : String := "40000"

/-- Invalid syntax. -/
def INVALID_SYNTAX : String := "42001"

/-- Graph type violation. -/
def GRAPH_TYPE_VIOLATION : String := "G2000"

/-- Diagnostic record attached to a GqlStatus (proto message, fields as used
by src/status.rs). -/
structure DiagnosticRecord where
  operation : String
  operationCode : Int
  currentSchema : String
deriving DecidableEq, Repr

/-- The wire GqlStatus: code, message, optional diagnostic, optional nested
cause (proto message, fields as used by src/status.rs and src/error.rs). -/
inductive GqlStatus where
  | mk (code : String) (message : String) (diagnostic : Option DiagnosticRecord)
      (cause : Option GqlStatus)
deriving Repr

/-- The code of a status. -/
def GqlStatus.code : GqlStatus → String
  | .mk c _ _ _ => c

/-- The message of a status. -/
def GqlStatus.message : GqlStatus → String
  | .mk _ m _ _ => m

/-- `status::success()` from src/status.rs. -/
def statusSuccess : GqlStatus :=
  .mk SUCCESS "successful completion" none none

/-- `status::error(code, message)` from src/status.rs. -/
def statusError (code : String) (message : String) : GqlStatus :=
  .mk code message none none

/-- `status::class(code)`: the first two characters of a code, or the whole
code when it is shorter.  Strings are modelled as their character lists
(the codes in play are ASCII, so byte and character indexing agree). -/
def statusClass (code : List Char) : List Char :=
  if code.length ≥ 2 then code.take 2 else code

/-- `status::is_success`: class 00. -/
def is_success (code : List Char) : Bool :=
  statusClass code == "00".data

/-- `status::is_warning`: class 01. -/
def is_warning (code : List Char) : Bool :=
  statusClass code == "01".data

/-- `status::is_no_data`: class 02. -/
def is_no_data (code : List Char) : Bool :=
  statusClass code == "02".data

/-- `status::is_informational`: class 03. -/
def is_informational (code : List Char) : Bool :=
  statusClass code == "03".data

/-- `status::is_exception`: a class shorter than two characters is no
exception; a letter-starting class always is; otherwise the class must be
lexicographically at least "08" (Rust compares the two-byte class strings,
which on ASCII data is the lexicographic order on the two characters). -/
def is_exception (code : List Char) : Bool :=
  match statusClass code with
  | c0 :: c1 :: _ =>
      if c0.isAlpha then true
      else decide ('0' < c0) || (c0 == '0' && decide ('8' ≤ c1))
  | _ => false

/-! ## Temporal types (src/types/temporal.rs) and their wire mirrors -/

/-- Internal calendar date (types::Date). -/
structure DateT where
  year : Int
  month : Nat
  day : Nat
deriving DecidableEq, Repr

/-- Internal time without timezone (types::LocalTime). -/
structure LocalTimeT where
  hour : Nat
  minute : Nat
  second : Nat
  nanosecond : Nat
deriving DecidableEq, Repr

/-- Internal time with UTC offset (types::ZonedTime). -/
structure ZonedTimeT where
  time : LocalTimeT
  offsetMinutes : Int
deriving DecidableEq, Repr

/-- Internal datetime without timezone (types::LocalDateTime). -/
structure LocalDateTimeT where
  date : DateT
  time : LocalTimeT
deriving DecidableEq, Repr

/-- Internal datetime with UTC offset (types::ZonedDateTime). -/
structure ZonedDateTimeT where
  date : DateT
  time : LocalTimeT
  offsetMinutes : Int
deriving DecidableEq, Repr

/-- Internal duration (types::Duration): months plus nanoseconds. -/
structure DurationT where
  months : Int
  nanoseconds : Int
deriving DecidableEq, Repr

/-- Wire date (proto::Date); same fields as the internal type. -/
structure ProtoDate where
  year : Int
  month : Nat
  day : Nat
deriving DecidableEq, Repr

/-- Wire local time (proto::LocalTime). -/
structure ProtoLocalTime where
  hour : Nat
  minute : Nat
  second : Nat
  nanosecond : Nat
deriving DecidableEq, Repr

/-- Wire zoned time (proto::ZonedTime); the time submessage is optional on
the wire. -/
structure ProtoZonedTime where
  time : Option ProtoLocalTime
  offsetMinutes : Int
deriving DecidableEq, Repr

/-- Wire local datetime (proto::LocalDateTime); submessages optional. -/
structure ProtoLocalDateTime where
  date : Option ProtoDate
  time : Option ProtoLocalTime
deriving DecidableEq, Repr

/-- Wire zoned datetime (proto::ZonedDateTime); submessages optional. -/
structure ProtoZonedDateTime where
  date : Option ProtoDate
  time : Option ProtoLocalTime
  offsetMinutes : Int
deriving DecidableEq, Repr

/-- Wire duration (proto::Duration). -/
structure ProtoDuration where
  months : Int
  nanoseconds : Int
deriving DecidableEq, Repr

/-- `From proto::Date for Date`. -/
def dateFromProto (p : ProtoDate) : DateT :=
  { year := p.year, month := p.month, day := p.day }

/-- `From Date for proto::Date`. -/
def dateToProto (d : DateT) : ProtoDate :=
  { year := d.year, month := d.month, day := d.day }

/-- `From proto::LocalTime for LocalTime`. -/
def localTimeFromProto (p : ProtoLocalTime) : LocalTimeT :=
  { hour := p.hour, minute := p.minute, second := p.second,
    nanosecond := p.nanosecond }

/-- `From LocalTime for proto::LocalTime`. -/
def localTimeToProto (t : LocalTimeT) : ProtoLocalTime :=
  { hour := t.hour, minute := t.minute, second := t.second,
    nanosecond := t.nanosecond }

/-- The all-zero local time used as the default for an absent submessage. -/
def zeroLocalTime : LocalTimeT :=
  { hour := 0, minute := 0, second := 0, nanosecond := 0 }

/-- The all-zero date used as the default for an absent submessage. -/
def zeroDate : DateT := { year := 0, month := 0, day := 0 }

/-- `From proto::ZonedTime for ZonedTime`: an absent time defaults to zeros. -/
def zonedTimeFromProto (p : ProtoZonedTime) : ZonedTimeT :=
  { time := p.time.elim zeroLocalTime localTimeFromProto,
    offsetMinutes := p.offsetMinutes }

/-- `From ZonedTime for proto::ZonedTime`. -/
def zonedTimeToProto (t : ZonedTimeT) : ProtoZonedTime :=
  { time := some (localTimeToProto t.time), offsetMinutes := t.offsetMinutes }

/-- `From proto::LocalDateTime for LocalDateTime`. -/
def localDateTimeFromProto (p : ProtoLocalDateTime) : LocalDateTimeT :=
  { date := p.date.elim zeroDate dateFromProto,
    time := p.time.elim zeroLocalTime localTimeFromProto }

/-- `From LocalDateTime for proto::LocalDateTime`. -/
def localDateTimeToProto (dt : LocalDateTimeT) : ProtoLocalDateTime :=
  { date := some (dateToProto dt.date), time := some (localTimeToProto dt.time) }

/-- `From proto::ZonedDateTime for ZonedDateTime`. -/
def zonedDateTimeFromProto (p : ProtoZonedDateTime) : ZonedDateTimeT :=
  { date := p.date.elim zeroDate dateFromProto,
    time := p.time.elim zeroLocalTime localTimeFromProto,
    offsetMinutes := p.offsetMinutes }

/-- `From ZonedDateTime for proto::ZonedDateTime`. -/
def zonedDateTimeToProto (dt : ZonedDateTimeT) : ProtoZonedDateTime :=
  { date := some (dateToProto dt.date), time := some (localTimeToProto dt.time),
    offsetMinutes := dt.offsetMinutes }

/-- `From proto::Duration for Duration`. -/
def durationFromProto (p : ProtoDuration) : DurationT :=
  { months := p.months, nanoseconds := p.nanoseconds }

/-- `From Duration for proto::Duration`. -/
def durationToProto (d : DurationT) : ProtoDuration :=
  { months := d.months, nanoseconds := d.nanoseconds }

/-! ## The internal Value union (src/types/value.rs, node.rs, edge.rs,
path.rs, record.rs)

The recursive collections (Vec of Value, the record field list, the
property maps, a path's node and edge vectors) are modelled as bespoke
list-like inductives so that the whole family is one mutual inductive with
ordinary structural recursion.  Rust's HashMap property maps become entry
lists; the conversions in the source map over the entries, which the
embedding mirrors entrywise. -/

mutual

inductive Value where
  | null
  | boolean (b : Bool)
  | integer (i : Int)
  | unsignedInteger (u : Nat)
  | float (bits : Nat)
  | string (s : String)
  | bytes (bs : List Nat)
  | date (d : DateT)
  | localTime (t : LocalTimeT)
  | zonedTime (t : ZonedTimeT)
  | localDateTime (dt : LocalDateTimeT)
  | zonedDateTime (dt : ZonedDateTimeT)
  | duration (d : DurationT)
  | list (elements : ValueList)
  | record (fields : FieldList)
  | node (n : NodeT)
  | edge (e : EdgeT)
  | path (p : PathT)
  | decimal (unscaled : List Nat) (scale : Int)
  | bigInteger (value : List Nat) (isSigned : Bool)
  | bigFloat (value : List Nat) (width : Nat)

inductive ValueList where
  | nil
  | cons (head : Value) (tail : ValueList)

inductive FieldList where
  | nil
  | cons (name : String) (value : Value) (tail : FieldList)

inductive PropList where
  | nil
  | cons (key : String) (value : Value) (tail : PropList)

inductive NodeT where
  | mk (id : List Nat) (labels : List String) (properties : PropList)

inductive EdgeT where
  | mk (id : List Nat) (labels : List String) (sourceNodeId : List Nat)
      (targetNodeId : List Nat) (undirected : Bool) (properties : PropList)

inductive NodeListT where
  | nil
  | cons (head : NodeT) (tail : NodeListT)

inductive EdgeListT where
  | nil
  | cons (head : EdgeT) (tail : EdgeListT)

inductive PathT where
  | mk (nodes : NodeListT) (edges : EdgeListT)

end

/-! ## The wire Value (proto::Value and friends)

The oneof kind is optional, a record field's value is an optional
submessage, and the single-field proto::GqlList wrapper is inlined into
the listValue arm. -/

mutual

inductive ProtoValue where
  | mk (kind : Option ProtoKind)

inductive ProtoKind where
  | nullValue
  | booleanValue (b : Bool)
  | integerValue (i : Int)
  | unsignedIntegerValue (u : Nat)
  | floatValue (bits : Nat)
  | stringValue (s : String)
  | bytesValue (bs : List Nat)
  | dateValue (d : ProtoDate)
  | localTimeValue (t : ProtoLocalTime)
  | zonedTimeValue (t : ProtoZonedTime)
  | localDatetimeValue (dt : ProtoLocalDateTime)
  | zonedDatetimeValue (dt : ProtoZonedDateTime)
  | durationValue (d : ProtoDuration)
  | listValue (elements : ProtoValueList)
  | recordValue (fields : ProtoFieldList)
  | nodeValue (n : ProtoNode)
  | edgeValue (e : ProtoEdge)
  | pathValue (p : ProtoPath)
  | decimalValue (unscaled : List Nat) (scale : Int)
  | bigIntegerValue (value : List Nat) (isSigned : Bool)
  | bigFloatValue (value : List Nat) (width : Nat)

inductive ProtoValueList where
  | nil
  | cons (head : ProtoValue) (tail : ProtoValueList)

inductive ProtoFieldList where
  | nil
  | cons (name : String) (value : Option ProtoValue) (tail : ProtoFieldList)

inductive ProtoPropList where
  | nil
  | cons (key : String) (value : ProtoValue) (tail : ProtoPropList)

inductive ProtoNode where
  | mk (id : List Nat) (labels : List String) (properties : ProtoPropList)

inductive ProtoEdge where
  | mk (id : List Nat) (labels : List String) (sourceNodeId : List Nat)
      (targetNodeId : List Nat) (undirected : Bool) (properties : ProtoPropList)

inductive ProtoNodeList where
  | nil
  | cons (head : ProtoNode) (tail : ProtoNodeList)

inductive ProtoEdgeList where
  | nil
  | cons (head : ProtoEdge) (tail : ProtoEdgeList)

inductive ProtoPath where
  | mk (nodes : ProtoNodeList) (edges : ProtoEdgeList)

end

/-! ## Bidirectional conversions (the From impls of src/types)

`fromWire` is `impl From of proto::Value for Value` and `toWire` is the
reverse impl; record fields, property maps, node/edge/path contents follow
the per-type From impls of record.rs, node.rs, edge.rs and path.rs. -/

mutual

/-- `Value::from(proto::Value)`: an absent kind or an explicit NullValue
becomes Null. -/
def fromWire : ProtoValue → Value
  | .mk none => .null
  | .mk (some .nullValue) => .null
  | .mk (some (.booleanValue b)) => .boolean b
  | .mk (some (.integerValue i)) => .integer i
  | .mk (some (.unsignedIntegerValue u)) => .unsignedInteger u
  | .mk (some (.floatValue bits)) => .float bits
  | .mk (some (.stringValue s)) => .string s
  | .mk (some (.bytesValue bs)) => .bytes bs
  | .mk (some (.dateValue d)) => .date (dateFromProto d)
  | .mk (some (.localTimeValue t)) => .localTime (localTimeFromProto t)
  | .mk (some (.zonedTimeValue t)) => .zonedTime (zonedTimeFromProto t)
  | .mk (some (.localDatetimeValue dt)) => .localDateTime (localDateTimeFromProto dt)
  | .mk (some (.zonedDatetimeValue dt)) => .zonedDateTime (zonedDateTimeFromProto dt)
  | .mk (some (.durationValue d)) => .duration (durationFromProto d)
  | .mk (some (.listValue xs)) => .list (fromWireList xs)
  | .mk (some (.recordValue fs)) => .record (fromWireFields fs)
  | .mk (some (.nodeValue n)) => .node (fromWireNode n)
  | .mk (some (.edgeValue e)) => .edge (fromWireEdge e)
  | .mk (some (.pathValue p)) => .path (fromWirePath p)
  | .mk (some (.decimalValue unscaled scale)) => .decimal unscaled scale
  | .mk (some (.bigIntegerValue v s)) => .bigInteger v s
  | .mk (some (.bigFloatValue v w)) => .bigFloat v w

/-- Elementwise conversion of a wire list's elements. -/
def fromWireList : ProtoValueList → ValueList
  | .nil => .nil
  | .cons v vs => .cons (fromWire v) (fromWireList vs)

/-- Record fields from the wire: an absent field value becomes Null
(record.rs). -/
def fromWireFields : ProtoFieldList → FieldList
  | .nil => .nil
  | .cons name none fs => .cons name .null (fromWireFields fs)
  | .cons name (some v) fs => .cons name (fromWire v) (fromWireFields fs)

/-- Property-map entries from the wire (node.rs / edge.rs). -/
def fromWireProps : ProtoPropList → PropList
  | .nil => .nil
  | .cons k v ps => .cons k (fromWire v) (fromWireProps ps)

/-- `Node::from(proto::Node)`. -/
def fromWireNode : ProtoNode → NodeT
  | .mk id labels props => .mk id labels (fromWireProps props)

/-- `Edge::from(proto::Edge)`. -/
def fromWireEdge : ProtoEdge → EdgeT
  | .mk id labels src tgt undirected props =>
      .mk id labels src tgt undirected (fromWireProps props)

/-- Nodes of a wire path. -/
def fromWireNodes : ProtoNodeList → NodeListT
  | .nil => .nil
  | .cons n ns => .cons (fromWireNode n) (fromWireNodes ns)

/-- Edges of a wire path. -/
def fromWireEdges : ProtoEdgeList → EdgeListT
  | .nil => .nil
  | .cons e es => .cons (fromWireEdge e) (fromWireEdges es)

/-- `Path::from(proto::Path)`. -/
def fromWirePath : ProtoPath → PathT
  | .mk ns es => .mk (fromWireNodes ns) (fromWireEdges es)

end

mutual

/-- `proto::Value::from(Value)`: every variant produces a present kind; in
particular Null is encoded as an explicit NullValue. -/
def toWire : Value → ProtoValue
  | .null => .mk (some .nullValue)
  | .boolean b => .mk (some (.booleanValue b))
  | .integer i => .mk (some (.integerValue i))
  | .unsignedInteger u => .mk (some (.unsignedIntegerValue u))
  | .float bits => .mk (some (.floatValue bits))
  | .string s => .mk (some (.stringValue s))
  | .bytes bs => .mk (some (.bytesValue bs))
  | .date d => .mk (some (.dateValue (dateToProto d)))
  | .localTime t => .mk (some (.localTimeValue (localTimeToProto t)))
  | .zonedTime t => .mk (some (.zonedTimeValue (zonedTimeToProto t)))
  | .localDateTime dt => .mk (some (.localDatetimeValue (localDateTimeToProto dt)))
  | .zonedDateTime dt => .mk (some (.zonedDatetimeValue (zonedDateTimeToProto dt)))
  | .duration d => .mk (some (.durationValue (durationToProto d)))
  | .list xs => .mk (some (.listValue (toWireList xs)))
  | .record fs => .mk (some (.recordValue (toWireFields fs)))
  | .node n => .mk (some (.nodeValue (toWireNode n)))
  | .edge e => .mk (some (.edgeValue (toWireEdge e)))
  | .path p => .mk (some (.pathValue (toWirePath p)))
  | .decimal unscaled scale => .mk (some (.decimalValue unscaled scale))
  | .bigInteger v s => .mk (some (.bigIntegerValue v s))
  | .bigFloat v w => .mk (some (.bigFloatValue v w))

/-- Elementwise conversion of list elements to the wire. -/
def toWireList : ValueList → ProtoValueList
  | .nil => .nil
  | .cons v vs => .cons (toWire v) (toWireList vs)

/-- Record fields to the wire: every field value is wrapped in Some
(record.rs). -/
def toWireFields : FieldList → ProtoFieldList
  | .nil => .nil
  | .cons name v fs => .cons name (some (toWire v)) (toWireFields fs)

/-- Property-map entries to the wire. -/
def toWireProps : PropList → ProtoPropList
  | .nil => .nil
  | .cons k v ps => .cons k (toWire v) (toWireProps ps)

/-- `proto::Node::from(Node)`. -/
def toWireNode : NodeT → ProtoNode
  | .mk id labels props => .mk id labels (toWireProps props)

/-- `proto::Edge::from(Edge)`. -/
def toWireEdge : EdgeT → ProtoEdge
  | .mk id labels src tgt undirected props =>
      .mk id labels src tgt undirected (toWireProps props)

/-- Nodes of a path to the wire. -/
def toWireNodes : NodeListT → ProtoNodeList
  | .nil => .nil
  | .cons n ns => .cons (toWireNode n) (toWireNodes ns)

/-- Edges of a path to the wire. -/
def toWireEdges : EdgeListT → ProtoEdgeList
  | .nil => .nil
  | .cons e es => .cons (toWireEdge e) (toWireEdges es)

/-- `proto::Path::from(Path)`. -/
def toWirePath : PathT → ProtoPath
  | .mk ns es => .mk (toWireNodes ns) (toWireEdges es)

end

/-! Fully-present wire values: every oneof and optional submessage is
populated.  On this set the wire-side round trip is the identity. -/

mutual

/-- A wire value is fully present when its kind is set and every nested
optional submessage is, recursively. -/
def presentWire : ProtoValue → Bool
  | .mk none => false
  | .mk (some k) =>
    match k with
    | .zonedTimeValue t => t.time.isSome
    | .localDatetimeValue dt => dt.date.isSome && dt.time.isSome
    | .zonedDatetimeValue dt => dt.date.isSome && dt.time.isSome
    | .listValue xs => presentWireList xs
    | .recordValue fs => presentWireFields fs
    | .nodeValue n => presentWireNode n
    | .edgeValue e => presentWireEdge e
    | .pathValue p => presentWirePath p
    | _ => true

/-- All elements fully present. -/
def presentWireList : ProtoValueList → Bool
  | .nil => true
  | .cons v vs => presentWire v && presentWireList vs

/-- All field values present and fully present. -/
def presentWireFields : ProtoFieldList → Bool
  | .nil => true
  | .cons _ none _ => false
  | .cons _ (some v) fs => presentWire v && presentWireFields fs

/-- All property values fully present. -/
def presentWireProps : ProtoPropList → Bool
  | .nil => true
  | .cons _ v ps => presentWire v && presentWireProps ps

/-- A node's properties fully present. -/
def presentWireNode : ProtoNode → Bool
  | .mk _ _ props => presentWireProps props

/-- An edge's properties fully present. -/
def presentWireEdge : ProtoEdge → Bool
  | .mk _ _ _ _ _ props => presentWireProps props

/-- All of a path's nodes fully present. -/
def presentWireNodes : ProtoNodeList → Bool
  | .nil => true
  | .cons n ns => presentWireNode n && presentWireNodes ns

/-- All of a path's edges fully present. -/
def presentWireEdges : ProtoEdgeList → Bool
  | .nil => true
  | .cons e es => presentWireEdge e && presentWireEdges es

/-- A path fully present. -/
def presentWirePath : ProtoPath → Bool
  | .mk ns es => presentWireNodes ns && presentWireEdges es

end


/-! ## Errors and transport statuses (src/error.rs) -/

/-- The gRPC status codes this crate produces through tonic. -/
inductive GrpcCode where
  | ok
  | notFound
  | failedPrecondition
  | invalidArgument
  | internal
  | unavailable
  | resourceExhausted
  | alreadyExists
  | unauthenticated
  | unimplemented
deriving DecidableEq, Repr

/-- A transport-level (tonic) status: code plus message. -/
structure GrpcStatus where
  code : GrpcCode
  message : String
deriving Repr

/-- The crate error union `GqlError`.  The opaque backend cause and the
wrapped tonic objects are carried as the strings they display as. -/
inductive GqlError where
  | protocol (msg : String)
  | session (msg : String)
  | transaction (msg : String)
  | backend (source : String)
  | status (status : GqlStatus)
  | transport (msg : String)
  | grpc (status : GrpcStatus)

/-- The thiserror Display of a `GqlError` (the attribute strings on each
variant).  tonic's own Display formats for the transport/grpc payloads are
abstracted as the carried message. -/
def GqlError.to_string : GqlError → String
  | .protocol m => "protocol error: " ++ m
  | .session m => "session error: " ++ m
  | .transaction m => "transaction error: " ++ m
  | .backend src => "backend error: " ++ src
  | .status st => "GQL error " ++ st.code ++ ": " ++ st.message
  | .transport m => "transport error: " ++ m
  | .grpc st => "gRPC error: " ++ st.message

/-- `GqlError::gql_status`: the carried GqlStatus of a Status error. -/
def GqlError.gqlStatus : GqlError → Option GqlStatus
  | .status st => some st
  | _ => none

/-- `GqlError::to_grpc_status`: the control-plane translation table.  Every
Session error maps to NOT_FOUND; there is no inspection of the message. -/
def GqlError.toGrpcStatus : GqlError → GrpcStatus
  | .session m => ⟨.notFound, m⟩
  | .transaction m => ⟨.failedPrecondition, m⟩
  | .protocol m => ⟨.invalidArgument, m⟩
  | .backend src => ⟨.internal, src⟩
  | .status st => ⟨.internal, st.code ++ ": " ++ st.message⟩
  | .transport m => ⟨.unavailable, m⟩
  | .grpc st => st

/-- Substring test on character lists (Rust `str::contains`). -/
def charsContain (s pat : List Char) : Bool :=
  pat.isPrefixOf s ||
    match s with
    | [] => false
    | _ :: t => charsContain t pat

/-- Substring test on strings. -/
def strContains (s pat : String) : Bool := charsContain s.data pat.data

/-- `GqlError::to_optional_service_status`: Session errors whose message
contains "not found" keep NOT_FOUND, Protocol maps to UNIMPLEMENTED,
everything else falls back to the common table. -/
def GqlError.toOptionalServiceStatus (e : GqlError) : GrpcStatus :=
  match e with
  | .session m => if strContains m "not found" then ⟨.notFound, m⟩ else e.toGrpcStatus
  | .protocol m => ⟨.unimplemented, m⟩
  | _ => e.toGrpcStatus

/-- `map_error` of src/server/database_service.rs: adds ALREADY_EXISTS for
duplicate databases and an INVALID_ARGUMENT fallback for other Session
errors. -/
def dbMapError (e : GqlError) : GrpcStatus :=
  match e with
  | .session m =>
      if strContains m "already exists" then ⟨.alreadyExists, m⟩
      else if strContains m "not found" then ⟨.notFound, m⟩
      else ⟨.invalidArgument, m⟩
  | _ => e.toOptionalServiceStatus

/-! ## Result frames and the execute wire messages
(src/server/backend.rs, src/server/gql_service.rs)

The header and batch payloads are never inspected by the runtime; their
field layout is modelled from the spec: a header carries the result type
and the column descriptors (name plus type descriptor), a batch carries
rows of wire values. -/

/-- Modelled from the spec: proto::ResultHeader, whose fields the runtime
never reads (the .proto schema is not part of src/). -/
structure ProtoResultHeader where
  resultType : Int
  columns : List (String × Int)

/-- Modelled from the spec: proto::RowBatch with rows of wire values (the
.proto schema is not part of src/). -/
structure ProtoRowBatch where
  rows : List (List ProtoValue)

/-- proto::ResultSummary as constructed by gql_service.rs. -/
structure ResultSummary where
  status : Option GqlStatus
  warnings : List GqlStatus
  rowsAffected : Nat
  counters : List (String × Nat)

/-- `ResultFrame` from src/server/backend.rs. -/
inductive ResultFrame where
  | header (h : ProtoResultHeader)
  | batch (b : ProtoRowBatch)
  | summary (s : ResultSummary)

/-- The oneof arm of proto::ExecuteResponse. -/
inductive ExecuteFrame where
  | header (h : ProtoResultHeader)
  | rowBatch (b : ProtoRowBatch)
  | summary (s : ResultSummary)

/-- proto::ExecuteResponse: one optional frame. -/
structure ExecuteResponse where
  frame : Option ExecuteFrame

/-- The GQLSTATUS attached to a failed backend operation during execute:
the carried status when there is one, else DATA_EXCEPTION with the
stringified error (gql_service.rs, both the synchronous and the mid-stream
arm). -/
def errorSummaryStatus (e : GqlError) : GqlStatus :=
  match e.gqlStatus with
  | some s => s
  | none => statusError DATA_EXCEPTION e.to_string

/-- The summary frame fabricated for a backend error (empty warnings, zero
rows, empty counters). -/
def errorSummary (e : GqlError) : ResultSummary :=
  { status := some (errorSummaryStatus e), warnings := [], rowsAffected := 0,
    counters := [] }

/-- One step of `ResultStreamAdapter::poll_next`: an Ok frame is wrapped
into the matching oneof arm, an Err item becomes an Ok summary response
carrying the error's GQLSTATUS.  The adapter never emits a transport
error. -/
def adapterItem : Except GqlError ResultFrame → Except GrpcStatus ExecuteResponse
  | .ok (.header h) => .ok ⟨some (.header h)⟩
  | .ok (.batch b) => .ok ⟨some (.rowBatch b)⟩
  | .ok (.summary s) => .ok ⟨some (.summary s)⟩
  | .error e => .ok ⟨some (.summary (errorSummary e))⟩

/-! ## Registry states (src/server/session_manager.rs and
transaction_manager.rs)

The HashMaps behind the registry locks become association lists; a whole
locked method becomes one Lean function (the source holds the write lock
from check to mutation, so a method is one atomic step).  Instants become
Nat timestamps passed in as "now". -/

/-- Association-list lookup (HashMap::get). -/
def lookupKey {α : Type} (m : List (String × α)) (k : String) : Option α :=
  (m.find? (fun p => p.1 == k)).map (·.2)

/-- Association-list removal (HashMap::remove). -/
def eraseKey {α : Type} (m : List (String × α)) (k : String) : List (String × α) :=
  m.filter (fun p => p.1 != k)

/-- Association-list insert-or-replace (HashMap::insert). -/
def insertKey {α : Type} (m : List (String × α)) (k : String) (v : α) :
    List (String × α) :=
  (k, v) :: eraseKey m k

/-- In-place update of one entry (HashMap::get_mut). -/
def updateKey {α : Type} (m : List (String × α)) (k : String) (f : α → α) :
    List (String × α) :=
  m.map (fun p => if p.1 == k then (p.1, f p.2) else p)

/-- Key membership (HashMap::contains_key). -/
def containsKey {α : Type} (m : List (String × α)) (k : String) : Bool :=
  m.any (fun p => p.1 == k)

/-- Transaction access mode (proto::TransactionMode). -/
inductive TransactionMode where
  | readOnly
  | readWrite
deriving DecidableEq, Repr

/-- `TransactionState` from transaction_manager.rs. -/
structure TransactionState where
  sessionId : String
  mode : TransactionMode
deriving DecidableEq, Repr

/-- A session property to configure (backend.rs `SessionProperty`). -/
inductive SessionProperty where
  | schema (s : String)
  | graph (g : String)
  | timeZone (offset : Int)
  | parameter (name : String) (value : Value)

/-- What to reset on a session (backend.rs `ResetTarget`). -/
inductive ResetTarget where
  | all
  | schema
  | graph
  | timeZone
  | parameters
deriving DecidableEq, Repr

/-- `SessionState` from session_manager.rs. -/
structure SessionState where
  schema : Option String
  graph : Option String
  timeZoneOffsetMinutes : Int
  parameters : List (String × Value)
  activeTransaction : Option String
  lastActivity : Nat

/-- `SessionState::default()` at creation instant `now`. -/
def defaultSessionState (now : Nat) : SessionState :=
  { schema := none, graph := none, timeZoneOffsetMinutes := 0,
    parameters := [], activeTransaction := none, lastActivity := now }

/-- The combined server-side registries: the session map with its optional
capacity (SessionManager) and the transaction map (TransactionManager). -/
structure ServerState where
  sessions : List (String × SessionState)
  maxSessions : Option Nat
  transactions : List (String × TransactionState)

/-- `SessionManager::exists`. -/
def smExists (st : ServerState) (sessionId : String) : Bool :=
  containsKey st.sessions sessionId

/-- `SessionManager::touch`: update last_activity; silent no-op when the
session is missing. -/
def smTouch (st : ServerState) (sessionId : String) (now : Nat) : ServerState :=
  let f := fun s => { s with lastActivity := now }
  { st with sessions := updateKey st.sessions sessionId f }

/-- `SessionManager::register`: capacity check then insert of the default
state. -/
def smRegister (st : ServerState) (sessionId : String) (now : Nat) :
    Except GqlError ServerState :=
  match st.maxSessions with
  | some max =>
      if st.sessions.length ≥ max then
        .error (.session "session limit reached")
      else
        .ok { st with sessions := insertKey st.sessions sessionId (defaultSessionState now) }
  | none =>
      .ok { st with sessions := insertKey st.sessions sessionId (defaultSessionState now) }

/-- `SessionManager::set_active_transaction`. -/
def smSetActiveTransaction (st : ServerState) (sessionId : String)
    (transactionId : Option String) : Except GqlError ServerState :=
  if smExists st sessionId then
    let f := fun s => { s with activeTransaction := transactionId }
    .ok { st with sessions := updateKey st.sessions sessionId f }
  else
    .error (.session ("session " ++ sessionId ++ " not found"))

/-- The effect of one `SessionProperty` on a session's state
(SessionManager::configure match arms). -/
def applyProperty (s : SessionState) : SessionProperty → SessionState
  | .schema v => { s with schema := some v }
  | .graph v => { s with graph := some v }
  | .timeZone off => { s with timeZoneOffsetMinutes := off }
  | .parameter name value =>
      { s with parameters := insertKey s.parameters name value }

/-- `SessionManager::configure`. -/
def smConfigure (st : ServerState) (sessionId : String)
    (property : SessionProperty) : Except GqlError ServerState :=
  if smExists st sessionId then
    .ok { st with sessions := updateKey st.sessions sessionId (applyProperty · property) }
  else
    .error (.session ("session " ++ sessionId ++ " not found"))

/-- The effect of one `ResetTarget` (SessionManager::reset match arms);
resetting All replaces the state with the default at "now". -/
def applyReset (s : SessionState) (now : Nat) : ResetTarget → SessionState
  | .all => defaultSessionState now
  | .schema => { s with schema := none }
  | .graph => { s with graph := none }
  | .timeZone => { s with timeZoneOffsetMinutes := 0 }
  | .parameters => { s with parameters := [] }

/-- `SessionManager::reset`. -/
def smReset (st : ServerState) (sessionId : String) (target : ResetTarget)
    (now : Nat) : Except GqlError ServerState :=
  if smExists st sessionId then
    .ok { st with sessions := updateKey st.sessions sessionId (fun s => applyReset s now target) }
  else
    .error (.session ("session " ++ sessionId ++ " not found"))

/-- `TransactionManager::register`: under one lock, fail when any entry for
the session exists, otherwise insert. -/
def tmRegister (txns : List (String × TransactionState)) (transactionId : String)
    (sessionId : String) (mode : TransactionMode) :
    Except GqlError (List (String × TransactionState)) :=
  if txns.any (fun p => p.2.sessionId == sessionId) then
    .error (.transaction "session already has an active transaction")
  else
    .ok (insertKey txns transactionId ⟨sessionId, mode⟩)

/-- `TransactionManager::remove`. -/
def tmRemove (txns : List (String × TransactionState)) (transactionId : String) :
    Except GqlError (TransactionState × List (String × TransactionState)) :=
  match lookupKey txns transactionId with
  | some state => .ok (state, eraseKey txns transactionId)
  | none => .error (.transaction ("transaction " ++ transactionId ++ " not found"))

/-- `TransactionManager::validate`. -/
def tmValidate (txns : List (String × TransactionState)) (transactionId : String)
    (sessionId : String) : Except GqlError Unit :=
  match lookupKey txns transactionId with
  | some state =>
      if state.sessionId == sessionId then .ok ()
      else .error (.transaction "transaction does not belong to this session")
  | none => .error (.transaction ("transaction " ++ transactionId ++ " not found"))

/-! ## Service handlers (src/server/gql_service.rs, session_service.rs)

Each async handler becomes a function of the current registry state, the
decoded request, the value each backend call returned (oracles), and the
current instant.  It produces the transport result, the new registry state
and the ordered log of backend calls it made. -/

/-- A backend invocation recorded by a handler. -/
inductive BackendCall where
  | createSessionCall
  | closeSessionCall (session : String)
  | configureSessionCall (session : String) (property : SessionProperty)
  | resetSessionCall (session : String) (target : ResetTarget)
  | executeCall (session : String) (statement : String)
      (params : List (String × Value)) (transaction : Option String)
  | beginTransactionCall (session : String) (mode : TransactionMode)
  | commitCall (session : String) (transaction : String)
  | rollbackCall (session : String) (transaction : String)

/-- proto::ExecuteRequest (fields as read by gql_service.rs). -/
structure ExecuteRequest where
  sessionId : String
  statement : String
  parameters : List (String × ProtoValue)
  transactionId : String

/-- proto::BeginRequest; the mode field arrives already decoded (the code
decodes the wire integer with a ReadWrite fallback, which no claim
exercises). -/
structure BeginRequest where
  sessionId : String
  mode : TransactionMode

/-- proto::BeginResponse. -/
structure BeginResponse where
  transactionId : String
  status : Option GqlStatus

/-- proto::CommitRequest. -/
structure CommitRequest where
  sessionId : String
  transactionId : String

/-- proto::CommitResponse. -/
structure CommitResponse where
  status : Option GqlStatus

/-- proto::RollbackRequest. -/
structure RollbackRequest where
  sessionId : String
  transactionId : String

/-- proto::RollbackResponse. -/
structure RollbackResponse where
  status : Option GqlStatus

/-- `GqlServiceImpl::validate_session`: NOT_FOUND when the session is
absent; the session is not touched. -/
def gqlValidateSession (st : ServerState) (sessionId : String) :
    Except GrpcStatus Unit :=
  if smExists st sessionId then .ok ()
  else .error ⟨.notFound, "session " ++ sessionId ++ " not found"⟩

/-- `GqlServiceImpl::execute`.  The backend outcome is either a synchronous
error or the full item sequence its result stream will yield. -/
def gqlExecute (st : ServerState) (req : ExecuteRequest)
    (backendResult : Except GqlError (List (Except GqlError ResultFrame))) :
    Except GrpcStatus (List (Except GrpcStatus ExecuteResponse)) ×
      ServerState × List BackendCall :=
  match gqlValidateSession st req.sessionId with
  | .error e => (.error e, st, [])
  | .ok () =>
    let txCheck : Except GrpcStatus (Option String) :=
      if req.transactionId == "" then .ok none
      else
        match tmValidate st.transactions req.transactionId req.sessionId with
        | .ok () => .ok (some req.transactionId)
        | .error e => .error e.toGrpcStatus
    match txCheck with
    | .error e => (.error e, st, [])
    | .ok transaction =>
      let parameters := req.parameters.map (fun p => (p.1, fromWire p.2))
      let eff := [BackendCall.executeCall req.sessionId req.statement
        parameters transaction]
      match backendResult with
      | .ok items => (.ok (items.map adapterItem), st, eff)
      | .error err =>
          (.ok [.ok ⟨some (.summary (errorSummary err))⟩], st, eff)

/-- `GqlServiceImpl::begin_transaction`. -/
def gqlBeginTransaction (st : ServerState) (req : BeginRequest)
    (backendBegin : Except GqlError String) :
    Except GrpcStatus BeginResponse × ServerState × List BackendCall :=
  match gqlValidateSession st req.sessionId with
  | .error e => (.error e, st, [])
  | .ok () =>
    let eff := [BackendCall.beginTransactionCall req.sessionId req.mode]
    match backendBegin with
    | .ok handle =>
      match tmRegister st.transactions handle req.sessionId req.mode with
      | .error e =>
          (.ok ⟨"", some (statusError ACTIVE_TRANSACTION e.to_string)⟩, st,
            eff ++ [BackendCall.rollbackCall req.sessionId handle])
      | .ok txns =>
        let st1 : ServerState := { st with transactions := txns }
        let st2 :=
          match smSetActiveTransaction st1 req.sessionId (some handle) with
          | .ok s => s
          | .error _ => st1
        (.ok ⟨handle, some statusSuccess⟩, st2, eff)
    | .error err =>
      let status :=
        match err.gqlStatus with
        | some s => s
        | none => statusError ACTIVE_TRANSACTION err.to_string
      (.ok ⟨"", some status⟩, st, eff)

/-- `GqlServiceImpl::commit`. -/
def gqlCommit (st : ServerState) (req : CommitRequest)
    (backendCommit : Except GqlError Unit) :
    Except GrpcStatus CommitResponse × ServerState × List BackendCall :=
  match gqlValidateSession st req.sessionId with
  | .error e => (.error e, st, [])
  | .ok () =>
    match tmValidate st.transactions req.transactionId req.sessionId with
    | .error e =>
        (.ok ⟨some (statusError INVALID_TRANSACTION_STATE e.to_string)⟩, st, [])
    | .ok () =>
      let eff := [BackendCall.commitCall req.sessionId req.transactionId]
      match backendCommit with
      | .ok () =>
        let st1 :=
          match tmRemove st.transactions req.transactionId with
          | .ok r => { st with transactions := r.2 }
          | .error _ => st
        let st2 :=
          match smSetActiveTransaction st1 req.sessionId none with
          | .ok s => s
          | .error _ => st1
        (.ok ⟨some statusSuccess⟩, st2, eff)
      | .error err =>
        let status :=
          match err.gqlStatus with
          | some s => s
          | none => statusError TRANSACTION_ROLLBACK err.to_string
        (.ok ⟨some status⟩, st, eff)

/-- `GqlServiceImpl::rollback` (mirror of commit with the rollback backend
call). -/
def gqlRollback (st : ServerState) (req : RollbackRequest)
    (backendRollback : Except GqlError Unit) :
    Except GrpcStatus RollbackResponse × ServerState × List BackendCall :=
  match gqlValidateSession st req.sessionId with
  | .error e => (.error e, st, [])
  | .ok () =>
    match tmValidate st.transactions req.transactionId req.sessionId with
    | .error e =>
        (.ok ⟨some (statusError INVALID_TRANSACTION_STATE e.to_string)⟩, st, [])
    | .ok () =>
      let eff := [BackendCall.rollbackCall req.sessionId req.transactionId]
      match backendRollback with
      | .ok () =>
        let st1 :=
          match tmRemove st.transactions req.transactionId with
          | .ok r => { st with transactions := r.2 }
          | .error _ => st
        let st2 :=
          match smSetActiveTransaction st1 req.sessionId none with
          | .ok s => s
          | .error _ => st1
        (.ok ⟨some statusSuccess⟩, st2, eff)
      | .error err =>
        let status :=
          match err.gqlStatus with
          | some s => s
          | none => statusError TRANSACTION_ROLLBACK err.to_string
        (.ok ⟨some status⟩, st, eff)

/-! ### Session service (control plane) -/

/-- The oneof of proto::ConfigureRequest. -/
inductive ConfigureProperty where
  | schema (s : String)
  | graph (g : String)
  | timeZoneOffsetMinutes (tz : Int)
  | parameter (name : String) (value : Option ProtoValue)

/-- proto::ConfigureRequest: the property oneof may be absent. -/
structure ConfigureRequest where
  sessionId : String
  property : Option ConfigureProperty

/-- proto::ResetRequest with the target enum already decoded; none models a
wire integer outside the enum range (`try_from` failure). -/
structure ResetRequest where
  sessionId : String
  target : Option ResetTarget

/-- proto::PingRequest. -/
structure PingRequest where
  sessionId : String

/-- proto::PongResponse. -/
structure PongResponse where
  timestamp : Int

/-- proto::HandshakeRequest: credentials are opaque to the runtime, so only
their presence is modelled. -/
structure HandshakeRequest where
  protocolVersion : Nat
  credentialsPresent : Bool
  clientInfo : List (String × String)

/-- proto::ServerInfo. -/
structure ServerInfo where
  name : String
  version : String
  features : List String

/-- proto::HandshakeResponse. -/
structure HandshakeResponse where
  protocolVersion : Nat
  sessionId : String
  serverInfo : Option ServerInfo
  limits : List (String × String)

/-- The property translation inside `SessionServiceImpl::configure`: an
absent parameter value becomes Null. -/
def decodeProperty : ConfigureProperty → SessionProperty
  | .schema s => .schema s
  | .graph g => .graph g
  | .timeZoneOffsetMinutes tz => .timeZone tz
  | .parameter name v => .parameter name (v.elim Value.null fromWire)

/-- `SessionServiceImpl::configure`. -/
def sessionConfigure (st : ServerState) (req : ConfigureRequest)
    (backendConfigure : Except GqlError Unit) (now : Nat) :
    Except GrpcStatus Unit × ServerState × List BackendCall :=
  if ¬ smExists st req.sessionId then
    (.error ⟨.notFound, "session " ++ req.sessionId ++ " not found"⟩, st, [])
  else
    let st := smTouch st req.sessionId now
    match req.property with
    | none => (.error ⟨.invalidArgument, "no property specified"⟩, st, [])
    | some p =>
      let property := decodeProperty p
      let eff := [BackendCall.configureSessionCall req.sessionId property]
      match backendConfigure with
      | .error e => (.error e.toGrpcStatus, st, eff)
      | .ok () =>
        match smConfigure st req.sessionId property with
        | .error e => (.error e.toGrpcStatus, st, eff)
        | .ok st2 => (.ok (), st2, eff)

/-- `SessionServiceImpl::reset`. -/
def sessionReset (st : ServerState) (req : ResetRequest)
    (backendReset : Except GqlError Unit) (now : Nat) :
    Except GrpcStatus Unit × ServerState × List BackendCall :=
  if ¬ smExists st req.sessionId then
    (.error ⟨.notFound, "session " ++ req.sessionId ++ " not found"⟩, st, [])
  else
    let st := smTouch st req.sessionId now
    match req.target with
    | none => (.error ⟨.invalidArgument, "invalid reset target"⟩, st, [])
    | some target =>
      let eff := [BackendCall.resetSessionCall req.sessionId target]
      match backendReset with
      | .error e => (.error e.toGrpcStatus, st, eff)
      | .ok () =>
        match smReset st req.sessionId target now with
        | .error e => (.error e.toGrpcStatus, st, eff)
        | .ok st2 => (.ok (), st2, eff)

/-- `SessionServiceImpl::ping`: the wall-clock reading returned to the
client is an oracle. -/
def sessionPing (st : ServerState) (req : PingRequest) (now : Nat)
    (timestamp : Int) : Except GrpcStatus PongResponse × ServerState :=
  if ¬ smExists st req.sessionId then
    (.error ⟨.notFound, "session " ++ req.sessionId ++ " not found"⟩, st)
  else
    (.ok ⟨timestamp⟩, smTouch st req.sessionId now)

/-- `SessionServiceImpl::handshake`.  The auth hook, the backend
create_session and the crate version string are oracles. -/
def sessionHandshake (st : ServerState) (req : HandshakeRequest)
    (authConfigured : Bool) (authResult : Except GqlError Unit)
    (createSession : Except GqlError String) (version : String) (now : Nat) :
    Except GrpcStatus HandshakeResponse × ServerState × List BackendCall :=
  let authCheck : Except GrpcStatus Unit :=
    if authConfigured then
      if req.credentialsPresent then
        match authResult with
        | .ok () => .ok ()
        | .error _ => .error ⟨.unauthenticated, "invalid credentials"⟩
      else .error ⟨.unauthenticated, "credentials required"⟩
    else .ok ()
  match authCheck with
  | .error e => (.error e, st, [])
  | .ok () =>
    match createSession with
    | .error e => (.error e.toGrpcStatus, st, [BackendCall.createSessionCall])
    | .ok handle =>
      match smRegister st handle now with
      | .error e =>
          (.error ⟨.resourceExhausted, e.to_string⟩, st,
            [BackendCall.createSessionCall, BackendCall.closeSessionCall handle])
      | .ok st2 =>
          (.ok ⟨1, handle, some ⟨"gql-wire-protocol", version, []⟩, []⟩, st2,
            [BackendCall.createSessionCall])

/-! ## Client transaction (src/client/transaction.rs)

The wrapper's two flags and the terminal methods; each RPC outcome is an
oracle (a transport error or the decoded response).  `commit` consumes the
object but on the transport-error early return the object is dropped with
the flags it has at that point, so the functions return the final flag
state alongside the method result. -/

/-- The client-side transaction flags (session and transaction ids carried
along). -/
structure ClientTransaction where
  sessionId : String
  id : String
  committed : Bool
  rolledBack : Bool

/-- A freshly begun client transaction: both flags clear. -/
def freshClientTransaction (sessionId id : String) : ClientTransaction :=
  { sessionId := sessionId, id := id, committed := false, rolledBack := false }

/-- `Transaction::commit`: the committed flag is set as soon as the RPC
returns, before the response status is inspected. -/
def clientCommit (tx : ClientTransaction)
    (rpc : Except GrpcStatus CommitResponse) :
    ClientTransaction × Except GqlError Unit :=
  match rpc with
  | .error st => (tx, .error (.grpc st))
  | .ok resp =>
    let tx := { tx with committed := true }
    match resp.status with
    | some s =>
        if is_exception s.code.data then (tx, .error (.status s))
        else (tx, .ok ())
    | none => (tx, .ok ())

/-- `Transaction::do_rollback` (also the body of `Transaction::rollback`):
a no-op when a flag is already set; otherwise the rolled_back flag is set
as soon as the RPC returns, before the status is inspected. -/
def clientRollback (tx : ClientTransaction)
    (rpc : Except GrpcStatus RollbackResponse) :
    ClientTransaction × Except GqlError Unit :=
  if tx.committed || tx.rolledBack then (tx, .ok ())
  else
    match rpc with
    | .error st => (tx, .error (.grpc st))
    | .ok resp =>
      let tx := { tx with rolledBack := true }
      match resp.status with
      | some s =>
          if is_exception s.code.data then (tx, .error (.status s))
          else (tx, .ok ())
      | none => (tx, .ok ())

/-- The Drop impl's guard: a rollback is spawned iff neither flag is set. -/
def dropFiresRollback (tx : ClientTransaction) : Bool :=
  !tx.committed && !tx.rolledBack

/-- The terminal call (if any) performed on a transaction before it goes
out of scope, with the outcome of its RPC. -/
inductive TerminalCall where
  | noCall
  | commitCall (rpc : Except GrpcStatus CommitResponse)
  | rollbackCall (rpc : Except GrpcStatus RollbackResponse)

/-- The flag state the transaction is dropped with after its terminal
call. -/
def runTerminal (tx : ClientTransaction) : TerminalCall → ClientTransaction
  | .noCall => tx
  | .commitCall rpc => (clientCommit tx rpc).1
  | .rollbackCall rpc => (clientRollback tx rpc).1

/-- Whether the terminal call's RPC completed (reached the server and
returned a response, whatever its status). -/
def rpcCompleted : TerminalCall → Bool
  | .noCall => false
  | .commitCall (.ok _) => true
  | .commitCall (.error _) => false
  | .rollbackCall (.ok _) => true
  | .rollbackCall (.error _) => false

/-! ## Stream shape: the frame grammar of an execute response -/

/-- The three frame kinds of an execute stream. -/
inductive FrameKind where
  | header
  | batch
  | summary
deriving DecidableEq, Repr

/-- The frame kind carried by one response message (none when the oneof is
absent, which the server never produces). -/
def responseKind : ExecuteResponse → Option FrameKind
  | ⟨some (.header _)⟩ => some .header
  | ⟨some (.rowBatch _)⟩ => some .batch
  | ⟨some (.summary _)⟩ => some .summary
  | ⟨none⟩ => none

/-- Whether a stream item is an Ok message rather than a transport error. -/
def isOkItem : Except GrpcStatus ExecuteResponse → Bool
  | .ok _ => true
  | .error _ => false

/-- The sequence of frame kinds of an outbound stream. -/
def streamKinds (xs : List (Except GrpcStatus ExecuteResponse)) : List FrameKind :=
  xs.filterMap fun x =>
    match x with
    | .ok r => responseKind r
    | .error _ => none

/-- The stream carried by an Ok execute result (empty for a transport
error). -/
def streamOrEmpty :
    Except GrpcStatus (List (Except GrpcStatus ExecuteResponse)) →
      List (Except GrpcStatus ExecuteResponse)
  | .ok s => s
  | .error _ => []

/-- Zero or more batches followed by exactly one final summary. -/
def batchesThenSummary : List FrameKind → Bool
  | [.summary] => true
  | .batch :: rest => batchesThenSummary rest
  | _ => false

/-- The frame grammar Header (Batch)* Summary. -/
def matchesHeaderBatchesSummary : List FrameKind → Bool
  | .header :: rest => batchesThenSummary rest
  | _ => false

/-- The backend's result-stream contract (backend.rs doc comment and the
frame-stream termination contract): the items are a header, then batches,
then either a summary or one terminal error; an error may also be the very
first item. -/
inductive WFBackendStream : List (Except GqlError ResultFrame) → Prop where
  | complete (h : ProtoResultHeader) (bs : List ProtoRowBatch) (s : ResultSummary) :
      WFBackendStream
        (.ok (.header h) :: bs.map (fun b => .ok (.batch b)) ++ [.ok (.summary s)])
  | errFirst (e : GqlError) : WFBackendStream [.error e]
  | errAfterHeader (h : ProtoResultHeader) (bs : List ProtoRowBatch) (e : GqlError) :
      WFBackendStream
        (.ok (.header h) :: bs.map (fun b => .ok (.batch b)) ++ [.error e])

/-- The number of registered transactions owned by a session. -/
def sessionTxCount (txns : List (String × TransactionState)) (sessionId : String) :
    Nat :=
  txns.countP (fun p => p.2.sessionId == sessionId)

/-- The single-active-transaction invariant: no session owns two registered
transactions. -/
def atMostOnePerSession (txns : List (String × TransactionState)) : Prop :=
  ∀ sessionId, sessionTxCount txns sessionId ≤ 1

/-- `SessionManager::active_transaction`. -/
def smActiveTransaction (st : ServerState) (sessionId : String) : Option String :=
  match lookupKey st.sessions sessionId with
  | some s => s.activeTransaction
  | none => none

/-- How many of the five GQLSTATUS classifiers accept a code. -/
def classifierCount (code : List Char) : Nat :=
  (if is_success code then 1 else 0) + (if is_warning code then 1 else 0) +
    (if is_no_data code then 1 else 0) + (if is_informational code then 1 else 0) +
    (if is_exception code then 1 else 0)

/-- The adapter only ever emits Ok messages. -/
theorem adapterItem_isOk (i : Except GqlError ResultFrame) :
    isOkItem (adapterItem i) = true := by
  cases i with
  | ok f => cases f <;> rfl
  | error e => rfl

/-- Kinds of an adapted batch run followed by a summary item. -/
theorem batchesThenSummary_batches (bs : List ProtoRowBatch)
    (tail : List FrameKind) (htail : batchesThenSummary tail = true) :
    batchesThenSummary ((bs.map fun _ => FrameKind.batch) ++ tail) = true := by
  induction bs with
  | nil => simpa using htail
  | cons b bs ih => simpa [batchesThenSummary] using ih

/-- streamKinds of an adapted Ok-batch run. -/
theorem streamKinds_adapter_batches (bs : List ProtoRowBatch) :
    streamKinds ((bs.map fun b => Except.ok (ResultFrame.batch b)).map adapterItem) =
      bs.map fun _ => FrameKind.batch := by
  induction bs with
  | nil => rfl
  | cons b bs ih => simpa [streamKinds, adapterItem, responseKind] using ih

/-- streamKinds distributes over adapted append. -/
theorem streamKinds_map_adapter_append (xs ys : List (Except GqlError ResultFrame)) :
    streamKinds ((xs ++ ys).map adapterItem) =
      streamKinds (xs.map adapterItem) ++ streamKinds (ys.map adapterItem) := by
  simp [streamKinds, List.filterMap_append]

/-- Adapted streams contain only Ok messages. -/
theorem all_isOkItem_map_adapter (items : List (Except GqlError ResultFrame)) :
    (items.map adapterItem).all isOkItem = true := by
  induction items with
  | nil => rfl
  | cons i l ih => simp [List.all_cons, adapterItem_isOk, ih]

/-- For a validated request, execute returns the adapted backend stream, or
the single fabricated summary on a synchronous backend error. -/
theorem gqlExecute_validated (st : ServerState) (req : ExecuteRequest)
    (br : Except GqlError (List (Except GqlError ResultFrame)))
    (hs : smExists st req.sessionId = true)
    (htx : req.transactionId = "" ∨
      tmValidate st.transactions req.transactionId req.sessionId = .ok ()) :
    (gqlExecute st req br).1 =
      match br with
      | .ok items => .ok (items.map adapterItem)
      | .error err => .ok [.ok ⟨some (.summary (errorSummary err))⟩] := by
  by_cases hemp : req.transactionId = ""
  · cases br <;> simp [gqlExecute, gqlValidateSession, hs, hemp]
  · rcases htx with h | hv
    · exact absurd h hemp
    · cases br <;> simp [gqlExecute, gqlValidateSession, hs, hemp, hv]

/-! Round-trip helper lemmas for the flat temporal types. -/

theorem dateFromProto_dateToProto (d : DateT) : dateFromProto (dateToProto d) = d := rfl

theorem localTimeFromProto_localTimeToProto (t : LocalTimeT) :
    localTimeFromProto (localTimeToProto t) = t := rfl

theorem zonedTimeFromProto_zonedTimeToProto (t : ZonedTimeT) :
    zonedTimeFromProto (zonedTimeToProto t) = t := rfl

theorem localDateTimeFromProto_localDateTimeToProto (dt : LocalDateTimeT) :
    localDateTimeFromProto (localDateTimeToProto dt) = dt := rfl

theorem zonedDateTimeFromProto_zonedDateTimeToProto (dt : ZonedDateTimeT) :
    zonedDateTimeFromProto (zonedDateTimeToProto dt) = dt := rfl

theorem durationFromProto_durationToProto (d : DurationT) :
    durationFromProto (durationToProto d) = d := rfl

/-! The internal-side round trip: decoding an encoded Value gives it back,
for every variant, by mutual structural induction over the Value family. -/

mutual

theorem fromWire_toWire : (v : Value) → fromWire (toWire v) = v
  | .null => rfl
  | .boolean _ => rfl
  | .integer _ => rfl
  | .unsignedInteger _ => rfl
  | .float _ => rfl
  | .string _ => rfl
  | .bytes _ => rfl
  | .date d => by simp [toWire, fromWire, dateFromProto_dateToProto]
  | .localTime t => by simp [toWire, fromWire, localTimeFromProto_localTimeToProto]
  | .zonedTime t => by simp [toWire, fromWire, zonedTimeFromProto_zonedTimeToProto]
  | .localDateTime dt => by
      simp [toWire, fromWire, localDateTimeFromProto_localDateTimeToProto]
  | .zonedDateTime dt => by
      simp [toWire, fromWire, zonedDateTimeFromProto_zonedDateTimeToProto]
  | .duration d => by simp [toWire, fromWire, durationFromProto_durationToProto]
  | .list xs => by simp [toWire, fromWire, fromWireList_toWireList xs]
  | .record fs => by simp [toWire, fromWire, fromWireFields_toWireFields fs]
  | .node n => by simp [toWire, fromWire, fromWireNode_toWireNode n]
  | .edge e => by simp [toWire, fromWire, fromWireEdge_toWireEdge e]
  | .path p => by simp [toWire, fromWire, fromWirePath_toWirePath p]
  | .decimal _ _ => rfl
  | .bigInteger _ _ => rfl
  | .bigFloat _ _ => rfl

theorem fromWireList_toWireList : (xs : ValueList) →
    fromWireList (toWireList xs) = xs
  | .nil => rfl
  | .cons v vs => by
      simp [toWireList, fromWireList, fromWire_toWire v, fromWireList_toWireList vs]

theorem fromWireFields_toWireFields : (fs : FieldList) →
    fromWireFields (toWireFields fs) = fs
  | .nil => rfl
  | .cons name v fs => by
      simp [toWireFields, fromWireFields, fromWire_toWire v,
        fromWireFields_toWireFields fs]

theorem fromWireProps_toWireProps : (ps : PropList) →
    fromWireProps (toWireProps ps) = ps
  | .nil => rfl
  | .cons k v ps => by
      simp [toWireProps, fromWireProps, fromWire_toWire v,
        fromWireProps_toWireProps ps]

theorem fromWireNode_toWireNode : (n : NodeT) →
    fromWireNode (toWireNode n) = n
  | .mk id labels props => by
      simp [toWireNode, fromWireNode, fromWireProps_toWireProps props]

theorem fromWireEdge_toWireEdge : (e : EdgeT) →
    fromWireEdge (toWireEdge e) = e
  | .mk id labels src tgt undirected props => by
      simp [toWireEdge, fromWireEdge, fromWireProps_toWireProps props]

theorem fromWireNodes_toWireNodes : (ns : NodeListT) →
    fromWireNodes (toWireNodes ns) = ns
  | .nil => rfl
  | .cons n ns => by
      simp [toWireNodes, fromWireNodes, fromWireNode_toWireNode n,
        fromWireNodes_toWireNodes ns]

theorem fromWireEdges_toWireEdges : (es : EdgeListT) →
    fromWireEdges (toWireEdges es) = es
  | .nil => rfl
  | .cons e es => by
      simp [toWireEdges, fromWireEdges, fromWireEdge_toWireEdge e,
        fromWireEdges_toWireEdges es]

theorem fromWirePath_toWirePath : (p : PathT) →
    fromWirePath (toWirePath p) = p
  | .mk ns es => by
      simp [toWirePath, fromWirePath, fromWireNodes_toWireNodes ns,
        fromWireEdges_toWireEdges es]

end

/-! Wire-side helper lemmas (encode after decode on flat temporal types). -/

theorem dateToProto_dateFromProto (p : ProtoDate) : dateToProto (dateFromProto p) = p := rfl

theorem localTimeToProto_localTimeFromProto (p : ProtoLocalTime) :
    localTimeToProto (localTimeFromProto p) = p := rfl

theorem durationToProto_durationFromProto (p : ProtoDuration) :
    durationToProto (durationFromProto p) = p := rfl

/-! The wire-side round trip holds on fully-present wire values, by mutual
structural induction over the wire family. -/

mutual

theorem toWire_fromWire : (x : ProtoValue) → presentWire x = true →
    toWire (fromWire x) = x
  | .mk none, h => by simp [presentWire] at h
  | .mk (some .nullValue), _ => rfl
  | .mk (some (.booleanValue _)), _ => rfl
  | .mk (some (.integerValue _)), _ => rfl
  | .mk (some (.unsignedIntegerValue _)), _ => rfl
  | .mk (some (.floatValue _)), _ => rfl
  | .mk (some (.stringValue _)), _ => rfl
  | .mk (some (.bytesValue _)), _ => rfl
  | .mk (some (.dateValue _)), _ => rfl
  | .mk (some (.localTimeValue _)), _ => rfl
  | .mk (some (.zonedTimeValue ⟨none, off⟩)), h => by simp [presentWire] at h
  | .mk (some (.zonedTimeValue ⟨some lt, off⟩)), _ => rfl
  | .mk (some (.localDatetimeValue ⟨some _, some _⟩)), _ => rfl
  | .mk (some (.localDatetimeValue ⟨none, t⟩)), h => by simp [presentWire] at h
  | .mk (some (.localDatetimeValue ⟨d, none⟩)), h => by simp [presentWire] at h
  | .mk (some (.zonedDatetimeValue ⟨some _, some _, off⟩)), _ => rfl
  | .mk (some (.zonedDatetimeValue ⟨none, t, off⟩)), h => by simp [presentWire] at h
  | .mk (some (.zonedDatetimeValue ⟨d, none, off⟩)), h => by simp [presentWire] at h
  | .mk (some (.durationValue _)), _ => rfl
  | .mk (some (.listValue xs)), h => by
      simp only [presentWire] at h
      simp [fromWire, toWire, toWireList_fromWireList xs h]
  | .mk (some (.recordValue fs)), h => by
      simp only [presentWire] at h
      simp [fromWire, toWire, toWireFields_fromWireFields fs h]
  | .mk (some (.nodeValue n)), h => by
      simp only [presentWire] at h
      simp [fromWire, toWire, toWireNode_fromWireNode n h]
  | .mk (some (.edgeValue e)), h => by
      simp only [presentWire] at h
      simp [fromWire, toWire, toWireEdge_fromWireEdge e h]
  | .mk (some (.pathValue p)), h => by
      simp only [presentWire] at h
      simp [fromWire, toWire, toWirePath_fromWirePath p h]
  | .mk (some (.decimalValue _ _)), _ => rfl
  | .mk (some (.bigIntegerValue _ _)), _ => rfl
  | .mk (some (.bigFloatValue _ _)), _ => rfl

theorem toWireList_fromWireList : (xs : ProtoValueList) →
    presentWireList xs = true → toWireList (fromWireList xs) = xs
  | .nil, _ => rfl
  | .cons v vs, h => by
      simp only [presentWireList, Bool.and_eq_true] at h
      simp [fromWireList, toWireList, toWire_fromWire v h.1,
        toWireList_fromWireList vs h.2]

theorem toWireFields_fromWireFields : (fs : ProtoFieldList) →
    presentWireFields fs = true → toWireFields (fromWireFields fs) = fs
  | .nil, _ => rfl
  | .cons name none fs, h => by simp [presentWireFields] at h
  | .cons name (some v) fs, h => by
      simp only [presentWireFields, Bool.and_eq_true] at h
      simp [fromWireFields, toWireFields, toWire_fromWire v h.1,
        toWireFields_fromWireFields fs h.2]

theorem toWireProps_fromWireProps : (ps : ProtoPropList) →
    presentWireProps ps = true → toWireProps (fromWireProps ps) = ps
  | .nil, _ => rfl
  | .cons k v ps, h => by
      simp only [presentWireProps, Bool.and_eq_true] at h
      simp [fromWireProps, toWireProps, toWire_fromWire v h.1,
        toWireProps_fromWireProps ps h.2]

theorem toWireNode_fromWireNode : (n : ProtoNode) →
    presentWireNode n = true → toWireNode (fromWireNode n) = n
  | .mk id labels props, h => by
      simp only [presentWireNode] at h
      simp [fromWireNode, toWireNode, toWireProps_fromWireProps props h]

theorem toWireEdge_fromWireEdge : (e : ProtoEdge) →
    presentWireEdge e = true → toWireEdge (fromWireEdge e) = e
  | .mk id labels src tgt undirected props, h => by
      simp only [presentWireEdge] at h
      simp [fromWireEdge, toWireEdge, toWireProps_fromWireProps props h]

theorem toWireNodes_fromWireNodes : (ns : ProtoNodeList) →
    presentWireNodes ns = true → toWireNodes (fromWireNodes ns) = ns
  | .nil, _ => rfl
  | .cons n ns, h => by
      simp only [presentWireNodes, Bool.and_eq_true] at h
      simp [fromWireNodes, toWireNodes, toWireNode_fromWireNode n h.1,
        toWireNodes_fromWireNodes ns h.2]

theorem toWireEdges_fromWireEdges : (es : ProtoEdgeList) →
    presentWireEdges es = true → toWireEdges (fromWireEdges es) = es
  | .nil, _ => rfl
  | .cons e es, h => by
      simp only [presentWireEdges, Bool.and_eq_true] at h
      simp [fromWireEdges, toWireEdges, toWireEdge_fromWireEdge e h.1,
        toWireEdges_fromWireEdges es h.2]

theorem toWirePath_fromWirePath : (p : ProtoPath) →
    presentWirePath p = true → toWirePath (fromWirePath p) = p
  | .mk ns es, h => by
      simp only [presentWirePath, Bool.and_eq_true] at h
      simp [fromWirePath, toWirePath, toWireNodes_fromWireNodes ns h.1,
        toWireEdges_fromWireEdges es h.2]

end

/-- C1 (counterexample): when the backend fails synchronously on a validated
execute request, the returned stream is a single Summary with no Header, so
the frame sequence does not match Header (Batch)* Summary as the claim
requires of every such request. -/
theorem c1_sync_error_stream_has_no_header :
    (gqlExecute ⟨[("s1", defaultSessionState 0)], none, []⟩
        ⟨"s1", "MATCH (n) RETURN n", [], ""⟩
        (.error (.backend "boom"))).1 =
      .ok [.ok ⟨some (.summary (errorSummary (.backend "boom")))⟩] ∧
    matchesHeaderBatchesSummary (streamKinds
        [.ok ⟨some (.summary (errorSummary (.backend "boom")))⟩]) = false :=
  ⟨rfl, rfl⟩

/-- C1 (amended): for every execute request whose session exists and whose
transaction, if supplied, validates, and whose backend stream obeys the
result-stream contract, the handler returns an Ok stream (not a transport
error) consisting of Ok messages only, and its frame kinds match
Header (Batch)* Summary — except that when the backend fails before
producing a header (synchronous error, or an error as the first stream
item) the stream is the single fabricated Summary.  Either way it ends
with exactly one Summary and nothing follows it. -/
theorem c1_execute_stream_shape (st : ServerState) (req : ExecuteRequest)
    (br : Except GqlError (List (Except GqlError ResultFrame)))
    (hs : smExists st req.sessionId = true)
    (htx : req.transactionId = "" ∨
      tmValidate st.transactions req.transactionId req.sessionId = .ok ())
    (hwf : ∀ items, br = .ok items → WFBackendStream items) :
    ((gqlExecute st req br).1).isOk = true ∧
    (streamOrEmpty (gqlExecute st req br).1).all isOkItem = true ∧
    (matchesHeaderBatchesSummary
        (streamKinds (streamOrEmpty (gqlExecute st req br).1)) = true ∨
      streamKinds (streamOrEmpty (gqlExecute st req br).1) = [.summary]) := by
  have hval := gqlExecute_validated st req br hs htx
  cases br with
  | error err =>
      rw [hval]
      exact ⟨rfl, rfl, Or.inr rfl⟩
  | ok items =>
      rw [hval]
      refine ⟨rfl, all_isOkItem_map_adapter items, ?_⟩
      show matchesHeaderBatchesSummary (streamKinds (items.map adapterItem)) = true ∨
        streamKinds (items.map adapterItem) = [.summary]
      cases hwf items rfl with
      | complete h bs s =>
          left
          show matchesHeaderBatchesSummary (streamKinds (List.map adapterItem
            (([Except.ok (ResultFrame.header h)] ++
              (bs.map fun b => Except.ok (ResultFrame.batch b))) ++
              [Except.ok (ResultFrame.summary s)]))) = true
          rw [streamKinds_map_adapter_append, streamKinds_map_adapter_append,
            streamKinds_adapter_batches bs]
          show matchesHeaderBatchesSummary (FrameKind.header ::
            ((bs.map fun _ => FrameKind.batch) ++ [FrameKind.summary])) = true
          simpa [matchesHeaderBatchesSummary] using
            batchesThenSummary_batches bs [FrameKind.summary] rfl
      | errFirst e => exact Or.inr rfl
      | errAfterHeader h bs e =>
          left
          show matchesHeaderBatchesSummary (streamKinds (List.map adapterItem
            (([Except.ok (ResultFrame.header h)] ++
              (bs.map fun b => Except.ok (ResultFrame.batch b))) ++
              [Except.error e]))) = true
          rw [streamKinds_map_adapter_append, streamKinds_map_adapter_append,
            streamKinds_adapter_batches bs]
          show matchesHeaderBatchesSummary (FrameKind.header ::
            ((bs.map fun _ => FrameKind.batch) ++ [FrameKind.summary])) = true
          simpa [matchesHeaderBatchesSummary] using
            batchesThenSummary_batches bs [FrameKind.summary] rfl

/-- C1 (witness): the shape theorem applied to a concrete one-session state,
an empty transaction id and a concrete complete backend stream. -/
theorem c1_execute_stream_shape_witness :
    ((gqlExecute ⟨[("s1", defaultSessionState 0)], none, []⟩
        ⟨"s1", "RETURN 1", [], ""⟩
        (.ok [.ok (.header ⟨0, []⟩), .ok (.batch ⟨[]⟩),
          .ok (.summary ⟨some statusSuccess, [], 0, []⟩)])).1).isOk = true ∧
    (streamOrEmpty (gqlExecute ⟨[("s1", defaultSessionState 0)], none, []⟩
        ⟨"s1", "RETURN 1", [], ""⟩
        (.ok [.ok (.header ⟨0, []⟩), .ok (.batch ⟨[]⟩),
          .ok (.summary ⟨some statusSuccess, [], 0, []⟩)])).1).all isOkItem = true ∧
    (matchesHeaderBatchesSummary
        (streamKinds (streamOrEmpty (gqlExecute
          ⟨[("s1", defaultSessionState 0)], none, []⟩
          ⟨"s1", "RETURN 1", [], ""⟩
          (.ok [.ok (.header ⟨0, []⟩), .ok (.batch ⟨[]⟩),
            .ok (.summary ⟨some statusSuccess, [], 0, []⟩)])).1)) = true ∨
      streamKinds (streamOrEmpty (gqlExecute
          ⟨[("s1", defaultSessionState 0)], none, []⟩
          ⟨"s1", "RETURN 1", [], ""⟩
          (.ok [.ok (.header ⟨0, []⟩), .ok (.batch ⟨[]⟩),
            .ok (.summary ⟨some statusSuccess, [], 0, []⟩)])).1) = [.summary]) :=
  c1_execute_stream_shape ⟨[("s1", defaultSessionState 0)], none, []⟩
    ⟨"s1", "RETURN 1", [], ""⟩
    (.ok [.ok (.header ⟨0, []⟩), .ok (.batch ⟨[]⟩),
      .ok (.summary ⟨some statusSuccess, [], 0, []⟩)])
    rfl (Or.inl rfl)
    (fun items h => by
      injection h with h
      subst h
      exact WFBackendStream.complete ⟨0, []⟩ [⟨[]⟩] ⟨some statusSuccess, [], 0, []⟩)

/-- C2: a backend error during a validated execute — synchronous or yielded
mid-stream — produces a Summary whose status is the error's carried
GqlStatus when present and otherwise code 22000 with the stringified error;
the synchronous case is that lone Summary, and in the mid-stream case the
earlier frames are delivered unchanged, then the Summary, then the stream
ends (the backend contract makes the error the final item). -/
theorem c2_execute_error_to_summary (st : ServerState) (req : ExecuteRequest)
    (e : GqlError)
    (hs : smExists st req.sessionId = true)
    (htx : req.transactionId = "" ∨
      tmValidate st.transactions req.transactionId req.sessionId = .ok ()) :
    ((∀ s, e.gqlStatus = some s → errorSummaryStatus e = s) ∧
      (e.gqlStatus = none →
        errorSummaryStatus e = statusError DATA_EXCEPTION e.to_string)) ∧
    (gqlExecute st req (.error e)).1 =
      .ok [.ok ⟨some (.summary (errorSummary e))⟩] ∧
    (∀ pre, (gqlExecute st req (.ok (pre ++ [.error e]))).1 =
      .ok (pre.map adapterItem ++ [.ok ⟨some (.summary (errorSummary e))⟩])) := by
  refine ⟨⟨?_, ?_⟩, ?_, ?_⟩
  · intro s h
    simp [errorSummaryStatus, h]
  · intro h
    simp [errorSummaryStatus, h]
  · exact gqlExecute_validated st req (.error e) hs htx
  · intro pre
    have hval := gqlExecute_validated st req (.ok (pre ++ [.error e])) hs htx
    simpa [List.map_append, adapterItem] using hval

/-- C2 (witness): the error theorem applied to a concrete state and a
Backend error without a carried status; the synchronous response is the
lone fabricated summary. -/
theorem c2_execute_error_to_summary_witness :
    (gqlExecute ⟨[("s1", defaultSessionState 0)], none, []⟩
        ⟨"s1", "RETURN 1", [], ""⟩ (.error (.backend "disk io"))).1 =
      .ok [.ok ⟨some (.summary (errorSummary (.backend "disk io")))⟩] :=
  (c2_execute_error_to_summary ⟨[("s1", defaultSessionState 0)], none, []⟩
    ⟨"s1", "RETURN 1", [], ""⟩ (.backend "disk io") rfl (Or.inl rfl)).2.1

/-- Erasing a key cannot increase a session's transaction count. -/
theorem sessionTxCount_eraseKey_le (txns : List (String × TransactionState))
    (k sessionId : String) :
    sessionTxCount (eraseKey txns k) sessionId ≤ sessionTxCount txns sessionId :=
  List.Sublist.countP_le _ (List.filter_sublist _)

/-- register fails whenever some entry already carries the session. -/
theorem tmRegister_error_of_exists (txns : List (String × TransactionState))
    (transactionId sessionId : String) (mode : TransactionMode)
    (h : ∃ p ∈ txns, p.2.sessionId = sessionId) :
    tmRegister txns transactionId sessionId mode =
      .error (.transaction "session already has an active transaction") := by
  obtain ⟨p, hp, hsid⟩ := h
  have hany : txns.any (fun p => p.2.sessionId == sessionId) = true := by
    simp only [List.any_eq_true]
    exact ⟨p, hp, by simp [hsid]⟩
  simp [tmRegister, hany]

/-- C3: TransactionManager::register enforces the single-active invariant
atomically: it fails with the Transaction error exactly when some
registered entry already carries the session id, otherwise inserts the new
entry; and a successful registration preserves the at-most-one-per-session
invariant.  (The check and insert happen under one write lock in the
source, so the whole method is a single step of the embedding.) -/
theorem c3_tm_register_single_active (txns : List (String × TransactionState))
    (transactionId sessionId : String) (mode : TransactionMode) :
    ((∃ p ∈ txns, p.2.sessionId = sessionId) →
      tmRegister txns transactionId sessionId mode =
        .error (.transaction "session already has an active transaction")) ∧
    ((¬ ∃ p ∈ txns, p.2.sessionId = sessionId) →
      tmRegister txns transactionId sessionId mode =
        .ok (insertKey txns transactionId ⟨sessionId, mode⟩)) ∧
    (∀ txns', tmRegister txns transactionId sessionId mode = .ok txns' →
      atMostOnePerSession txns → atMostOnePerSession txns') := by
  refine ⟨tmRegister_error_of_exists txns transactionId sessionId mode, ?_, ?_⟩
  · intro h
    have hany : txns.any (fun p => p.2.sessionId == sessionId) = false := by
      by_contra hc
      have := List.any_eq_true.mp (Bool.of_not_eq_false hc)
      obtain ⟨p, hp, hb⟩ := this
      exact h ⟨p, hp, by simpa using hb⟩
    simp [tmRegister, hany]
  · intro txns' hok hinv sid
    cases hany : txns.any (fun p => p.2.sessionId == sessionId) with
    | true => simp [tmRegister, hany] at hok
    | false =>
      simp only [tmRegister, hany, Bool.false_eq_true, if_false,
        Except.ok.injEq] at hok
      subst hok
      have hzero : ∀ a ∈ txns, ¬((fun p => p.2.sessionId == sessionId) a = true) := by
        intro a ha hcontra
        have : txns.any (fun p => p.2.sessionId == sessionId) = true :=
          List.any_eq_true.mpr ⟨a, ha, hcontra⟩
        rw [hany] at this
        exact Bool.false_ne_true this
      by_cases hsid : sid = sessionId
      · subst hsid
        have h0 : sessionTxCount txns sid = 0 :=
          List.countP_eq_zero.mpr hzero
        have herase : sessionTxCount (eraseKey txns transactionId) sid = 0 :=
          Nat.le_zero.mp (h0 ▸ sessionTxCount_eraseKey_le txns transactionId sid)
        simp only [sessionTxCount, insertKey, List.countP_cons] at *
        simp [herase]
      · have hhead : ((⟨sessionId, mode⟩ : TransactionState).sessionId == sid) = false := by
          simp [TransactionState.sessionId]
          exact fun hc => hsid hc.symm
        calc sessionTxCount (insertKey txns transactionId ⟨sessionId, mode⟩) sid
            = sessionTxCount (eraseKey txns transactionId) sid := by
              simp [sessionTxCount, insertKey, List.countP_cons, hhead]
          _ ≤ sessionTxCount txns sid := sessionTxCount_eraseKey_le txns transactionId sid
          _ ≤ 1 := hinv sid

/-- C3 (witness): a second begin on the same session is rejected while a
begin on a different session inserts its entry. -/
theorem c3_tm_register_single_active_witness :
    tmRegister [("t1", ⟨"s1", TransactionMode.readWrite⟩)] "t2" "s1"
        TransactionMode.readOnly =
      .error (.transaction "session already has an active transaction") ∧
    tmRegister [("t1", ⟨"s1", TransactionMode.readWrite⟩)] "t2" "s2"
        TransactionMode.readOnly =
      .ok (insertKey [("t1", ⟨"s1", TransactionMode.readWrite⟩)] "t2"
        ⟨"s2", TransactionMode.readOnly⟩) :=
  ⟨(c3_tm_register_single_active [("t1", ⟨"s1", .readWrite⟩)] "t2" "s1" .readOnly).1
      ⟨("t1", ⟨"s1", .readWrite⟩), by simp, rfl⟩,
    (c3_tm_register_single_active [("t1", ⟨"s1", .readWrite⟩)] "t2" "s2" .readOnly).2.1
      (by rintro ⟨p, hp, hsid⟩; simp at hp; rw [hp] at hsid; simp at hsid)⟩

/-- C4: when begin_transaction passes session validation, the backend's
begin succeeds, but the session already has a registered transaction, the
handler cascades a backend rollback of the new handle and returns — with
transport status OK — a response whose transaction_id is empty and whose
in-payload status has code 25G01 (ACTIVE_TRANSACTION). -/
theorem c4_begin_registration_failure (st : ServerState) (req : BeginRequest)
    (handle : String)
    (hs : smExists st req.sessionId = true)
    (hactive : ∃ p ∈ st.transactions, p.2.sessionId = req.sessionId) :
    gqlBeginTransaction st req (.ok handle) =
      (.ok ⟨"", some (statusError ACTIVE_TRANSACTION
          (GqlError.transaction "session already has an active transaction").to_string)⟩,
        st,
        [.beginTransactionCall req.sessionId req.mode,
          .rollbackCall req.sessionId handle]) ∧
    (statusError ACTIVE_TRANSACTION
      (GqlError.transaction "session already has an active transaction").to_string).code =
      "25G01" := by
  constructor
  · have hreg := tmRegister_error_of_exists st.transactions handle req.sessionId
      req.mode hactive
    simp [gqlBeginTransaction, gqlValidateSession, hs, hreg]
  · rfl

/-- C4 (witness): a concrete double begin — session s1 already owns t1 and
the backend handed out handle t2; the response is in-payload 25G01 with an
empty id, and the effect log shows the cascaded rollback of t2. -/
theorem c4_begin_registration_failure_witness :
    gqlBeginTransaction
        ⟨[("s1", defaultSessionState 0)], none, [("t1", ⟨"s1", .readWrite⟩)]⟩
        ⟨"s1", TransactionMode.readWrite⟩ (.ok "t2") =
      (.ok ⟨"", some (statusError ACTIVE_TRANSACTION
          (GqlError.transaction "session already has an active transaction").to_string)⟩,
        ⟨[("s1", defaultSessionState 0)], none, [("t1", ⟨"s1", .readWrite⟩)]⟩,
        [.beginTransactionCall "s1" TransactionMode.readWrite,
          .rollbackCall "s1" "t2"]) :=
  (c4_begin_registration_failure
    ⟨[("s1", defaultSessionState 0)], none, [("t1", ⟨"s1", .readWrite⟩)]⟩
    ⟨"s1", TransactionMode.readWrite⟩ "t2" rfl
    ⟨("t1", ⟨"s1", .readWrite⟩), by simp, rfl⟩).1

/-- Updating a key rewrites exactly its entry. -/
theorem lookupKey_updateKey {α : Type} (m : List (String × α)) (k : String)
    (f : α → α) : lookupKey (updateKey m k f) k = (lookupKey m k).map f := by
  induction m with
  | nil => rfl
  | cons p m ih =>
      by_cases hk : p.1 == k
      · simp [lookupKey, updateKey, List.find?, hk]
      · simpa [lookupKey, updateKey, List.find?, hk] using ih

/-- Key membership is lookup success. -/
theorem containsKey_eq_isSome {α : Type} (m : List (String × α)) (k : String) :
    containsKey m k = (lookupKey m k).isSome := by
  induction m with
  | nil => rfl
  | cons p m ih =>
      by_cases hk : p.1 == k
      · simp [containsKey, lookupKey, List.find?, hk]
      · simpa [containsKey, lookupKey, List.find?, hk] using ih

/-- Clearing the active-transaction pointer of an existing session makes it
read back as none. -/
theorem smActiveTransaction_after_clear (st : ServerState) (sessionId : String)
    (hs : smExists st sessionId = true) :
    smActiveTransaction
      { st with
        sessions := updateKey st.sessions sessionId (fun s => { s with activeTransaction := none }) }
      sessionId = none := by
  have hupd := lookupKey_updateKey st.sessions sessionId
    (fun s => { s with activeTransaction := none })
  rw [smExists, containsKey_eq_isSome] at hs
  cases hlook : lookupKey st.sessions sessionId with
  | none => rw [hlook] at hs; simp at hs
  | some s => simp [smActiveTransaction, hupd, hlook]

/-- C5 (counterexample): a commit whose backend call fails leaves the
transaction registered and the session's active pointer set — the registry
entry is only removed on backend success, contradicting the claimed
cleanup on every terminal response. -/
theorem c5_commit_failure_keeps_registration :
    (gqlCommit ⟨[("s1", ⟨none, none, 0, [], some "t1", 0⟩)], none,
        [("t1", ⟨"s1", .readWrite⟩)]⟩ ⟨"s1", "t1"⟩
        (.error (.backend "disk full"))).2.1 =
      ⟨[("s1", ⟨none, none, 0, [], some "t1", 0⟩)], none,
        [("t1", ⟨"s1", .readWrite⟩)]⟩ ∧
    containsKey (gqlCommit ⟨[("s1", ⟨none, none, 0, [], some "t1", 0⟩)], none,
        [("t1", ⟨"s1", .readWrite⟩)]⟩ ⟨"s1", "t1"⟩
        (.error (.backend "disk full"))).2.1.transactions "t1" = true ∧
    smActiveTransaction (gqlCommit ⟨[("s1", ⟨none, none, 0, [], some "t1", 0⟩)],
        none, [("t1", ⟨"s1", .readWrite⟩)]⟩ ⟨"s1", "t1"⟩
        (.error (.backend "disk full"))).2.1 "s1" = some "t1" :=
  ⟨rfl, rfl, rfl⟩

/-- C5 (amended): for a commit or rollback that passes session and
transaction-affinity validation, the transaction is removed from the
registry and the session's active pointer cleared when the backend call
succeeds; when the backend call fails the registry and session state are
left unchanged and the in-payload status is the error's GqlStatus, or code
40000 when it carries none. -/
theorem c5_commit_rollback_cleanup (st : ServerState)
    (sessionId transactionId : String)
    (hs : smExists st sessionId = true)
    (hv : tmValidate st.transactions transactionId sessionId = .ok ()) :
    ((gqlCommit st ⟨sessionId, transactionId⟩ (.ok ())).2.1.transactions =
        eraseKey st.transactions transactionId ∧
      smActiveTransaction
        (gqlCommit st ⟨sessionId, transactionId⟩ (.ok ())).2.1 sessionId = none ∧
      (gqlCommit st ⟨sessionId, transactionId⟩ (.ok ())).1 =
        .ok ⟨some statusSuccess⟩) ∧
    (∀ e, (gqlCommit st ⟨sessionId, transactionId⟩ (.error e)).2.1 = st ∧
      (gqlCommit st ⟨sessionId, transactionId⟩ (.error e)).1 =
        .ok ⟨some (match e.gqlStatus with
          | some s => s
          | none => statusError TRANSACTION_ROLLBACK e.to_string)⟩) ∧
    ((gqlRollback st ⟨sessionId, transactionId⟩ (.ok ())).2.1.transactions =
        eraseKey st.transactions transactionId ∧
      smActiveTransaction
        (gqlRollback st ⟨sessionId, transactionId⟩ (.ok ())).2.1 sessionId = none ∧
      (gqlRollback st ⟨sessionId, transactionId⟩ (.ok ())).1 =
        .ok ⟨some statusSuccess⟩) ∧
    (∀ e, (gqlRollback st ⟨sessionId, transactionId⟩ (.error e)).2.1 = st ∧
      (gqlRollback st ⟨sessionId, transactionId⟩ (.error e)).1 =
        .ok ⟨some (match e.gqlStatus with
          | some s => s
          | none => statusError TRANSACTION_ROLLBACK e.to_string)⟩) := by
  cases hlook : lookupKey st.transactions transactionId with
  | none => rw [tmValidate, hlook] at hv; exact absurd hv (by simp)
  | some state =>
    have hsid : (state.sessionId == sessionId) = true := by
      by_contra hb
      rw [tmValidate, hlook] at hv
      simp [hb] at hv
    have hex1 : smExists { st with transactions := eraseKey st.transactions transactionId }
        sessionId = true := hs
    have hclear := smActiveTransaction_after_clear
      { st with transactions := eraseKey st.transactions transactionId } sessionId hex1
    refine ⟨⟨?_, ?_, ?_⟩, ?_, ⟨?_, ?_, ?_⟩, ?_⟩
    · simp [gqlCommit, gqlValidateSession, hs, hv, tmRemove, hlook,
        smSetActiveTransaction, hex1]
    · simpa [gqlCommit, gqlValidateSession, hs, hv, tmRemove, hlook,
        smSetActiveTransaction, hex1] using hclear
    · simp [gqlCommit, gqlValidateSession, hs, hv, tmRemove, hlook,
        smSetActiveTransaction, hex1]
    · intro e
      cases hg : e.gqlStatus <;>
        simp [gqlCommit, gqlValidateSession, hs, hv, hg]
    · simp [gqlRollback, gqlValidateSession, hs, hv, tmRemove, hlook,
        smSetActiveTransaction, hex1]
    · simpa [gqlRollback, gqlValidateSession, hs, hv, tmRemove, hlook,
        smSetActiveTransaction, hex1] using hclear
    · simp [gqlRollback, gqlValidateSession, hs, hv, tmRemove, hlook,
        smSetActiveTransaction, hex1]
    · intro e
      cases hg : e.gqlStatus <;>
        simp [gqlRollback, gqlValidateSession, hs, hv, hg]

/-- C5 (witness): concrete cleanups — a successful commit removes t1 and
clears the pointer. -/
theorem c5_commit_rollback_cleanup_witness :
    (gqlCommit ⟨[("s1", ⟨none, none, 0, [], some "t1", 0⟩)], none,
        [("t1", ⟨"s1", .readWrite⟩)]⟩ ⟨"s1", "t1"⟩ (.ok ())).2.1.transactions =
      eraseKey [("t1", ⟨"s1", .readWrite⟩)] "t1" ∧
    smActiveTransaction (gqlCommit ⟨[("s1", ⟨none, none, 0, [], some "t1", 0⟩)],
        none, [("t1", ⟨"s1", .readWrite⟩)]⟩ ⟨"s1", "t1"⟩ (.ok ())).2.1 "s1" =
      none ∧
    (gqlCommit ⟨[("s1", ⟨none, none, 0, [], some "t1", 0⟩)], none,
        [("t1", ⟨"s1", .readWrite⟩)]⟩ ⟨"s1", "t1"⟩ (.ok ())).1 =
      .ok ⟨some statusSuccess⟩ :=
  (c5_commit_rollback_cleanup ⟨[("s1", ⟨none, none, 0, [], some "t1", 0⟩)], none,
    [("t1", ⟨"s1", .readWrite⟩)]⟩ "s1" "t1" rfl rfl).1

/-- C6 (counterexample): a legal wire value with an absent oneof decodes to
Null, but re-encoding produces an explicit NullValue kind, so the wire-side
round trip to_wire(from_wire(x)) = x fails at x with no kind. -/
theorem c6_absent_oneof_not_round_tripped :
    fromWire (ProtoValue.mk none) = Value.null ∧
    toWire (fromWire (ProtoValue.mk none)) ≠ ProtoValue.mk none :=
  ⟨rfl, by simp [fromWire, toWire]⟩

/-- C6 (amended): the internal-side round trip from_wire(to_wire(v)) = v
holds for every Value, every variant included; the wire-side round trip
to_wire(from_wire(x)) = x holds for every wire value whose oneof and nested
optional submessages are all present; an absent oneof decodes to Null but
re-encodes as an explicit NullValue rather than an absent oneof. -/
theorem c6_value_wire_round_trip :
    (∀ v : Value, fromWire (toWire v) = v) ∧
    (∀ x : ProtoValue, presentWire x = true → toWire (fromWire x) = x) ∧
    fromWire (ProtoValue.mk none) = Value.null :=
  ⟨fromWire_toWire, toWire_fromWire, rfl⟩

/-- C6 (witness): the round trips evaluated on a nested concrete value (a
list holding a record and a node) and on a concrete fully-present wire
list. -/
theorem c6_value_wire_round_trip_witness :
    fromWire (toWire (.list (.cons (.record (.cons "k" (.integer 7) .nil))
        (.cons (.node (.mk [1] ["L"] (.cons "p" .null .nil))) .nil)))) =
      .list (.cons (.record (.cons "k" (.integer 7) .nil))
        (.cons (.node (.mk [1] ["L"] (.cons "p" .null .nil))) .nil)) ∧
    presentWire (ProtoValue.mk (some (.listValue
        (.cons (.mk (some .nullValue)) .nil)))) = true ∧
    toWire (fromWire (ProtoValue.mk (some (.listValue
        (.cons (.mk (some .nullValue)) .nil))))) =
      ProtoValue.mk (some (.listValue (.cons (.mk (some .nullValue)) .nil))) :=
  ⟨c6_value_wire_round_trip.1 _, rfl,
    c6_value_wire_round_trip.2.1 _ rfl⟩

/-- Touching an existing session leaves its last_activity at "now". -/
theorem lastActivity_after_touch (st : ServerState) (sessionId : String)
    (now : Nat) (hs : smExists st sessionId = true) :
    (lookupKey ((smTouch st sessionId now).sessions) sessionId).map
      (·.lastActivity) = some now := by
  rw [smExists, containsKey_eq_isSome] at hs
  have hupd := lookupKey_updateKey st.sessions sessionId
    (fun s => { s with lastActivity := now })
  cases hlook : lookupKey st.sessions sessionId with
  | none => rw [hlook] at hs; simp at hs
  | some s => simp [smTouch, hupd, hlook]

/-- Applying a session property never changes last_activity. -/
theorem lastActivity_applyProperty (s : SessionState) (p : SessionProperty) :
    (applyProperty s p).lastActivity = s.lastActivity := by
  cases p <;> rfl

/-- Applying a reset to a just-touched state keeps last_activity at "now". -/
theorem lastActivity_applyReset (s : SessionState) (now : Nat) (t : ResetTarget)
    (h : s.lastActivity = now) : (applyReset s now t).lastActivity = now := by
  cases t <;> simp [applyReset, defaultSessionState, h]

/-- C7 (counterexample): an execute request on an existing session leaves
the whole registry state — the session's last_activity included — exactly
as it was: GqlServiceImpl::validate_session only checks existence and the
execute handler never calls touch, so last_activity is not updated to the
current instant. -/
theorem c7_execute_does_not_touch :
    (gqlExecute ⟨[("s1", defaultSessionState 0)], none, []⟩
        ⟨"s1", "RETURN 1", [], ""⟩ (.ok [])).2.1 =
      ⟨[("s1", defaultSessionState 0)], none, []⟩ ∧
    (lookupKey ((gqlExecute ⟨[("s1", defaultSessionState 0)], none, []⟩
        ⟨"s1", "RETURN 1", [], ""⟩ (.ok [])).2.1.sessions) "s1").map
      (·.lastActivity) = some 0 :=
  ⟨rfl, rfl⟩

/-- C7 (amended): the session-service requests that reference an existing
session (configure, reset, ping) update its last_activity to the current
instant; the GQL-service execute performs only the existence check and
leaves the registry state — last_activity included — unchanged. -/
theorem c7_touch_discipline (st : ServerState) (sessionId : String) (now : Nat)
    (ts : Int) (hs : smExists st sessionId = true) :
    ((lookupKey ((sessionPing st ⟨sessionId⟩ now ts).2.sessions) sessionId).map
        (·.lastActivity) = some now) ∧
    (∀ (req : ConfigureRequest) (b : Except GqlError Unit),
      req.sessionId = sessionId →
      (lookupKey ((sessionConfigure st req b now).2.1.sessions) sessionId).map
        (·.lastActivity) = some now) ∧
    (∀ (req : ResetRequest) (b : Except GqlError Unit),
      req.sessionId = sessionId →
      (lookupKey ((sessionReset st req b now).2.1.sessions) sessionId).map
        (·.lastActivity) = some now) ∧
    (∀ (req : ExecuteRequest)
      (br : Except GqlError (List (Except GqlError ResultFrame))),
      (gqlExecute st req br).2.1 = st) := by
  have htouch := lastActivity_after_touch st sessionId now hs
  have hexiststouch : smExists (smTouch st sessionId now) sessionId = true := by
    rw [smExists, containsKey_eq_isSome] at hs ⊢
    rw [smTouch]
    rw [lookupKey_updateKey]
    cases hlook : lookupKey st.sessions sessionId with
    | none => rw [hlook] at hs; simp at hs
    | some s => simp
  refine ⟨?_, ?_, ?_, ?_⟩
  · simp only [sessionPing]
    rw [if_neg (by simp [hs])]
    simpa using htouch
  · intro req b hreq
    subst hreq
    simp only [sessionConfigure]
    rw [if_neg (by simp [hs])]
    split
    · simpa using htouch
    · rename_i p hp
      split
      · simpa using htouch
      · split
        · simpa using htouch
        · rename_i st2 hconf
          rw [smConfigure, if_pos hexiststouch] at hconf
          have hsub := (Except.ok.inj hconf).symm
          subst hsub
          have hgoal : (lookupKey (updateKey
              (smTouch st req.sessionId now).sessions req.sessionId
              (fun s => applyProperty s (decodeProperty p))) req.sessionId).map
                (·.lastActivity) = some now := by
            rw [lookupKey_updateKey]
            cases hlook : lookupKey (smTouch st req.sessionId now).sessions
                req.sessionId with
            | none => rw [hlook] at htouch; simp at htouch
            | some s =>
              rw [hlook] at htouch
              simp at htouch ⊢
              rw [lastActivity_applyProperty]
              exact htouch
          simpa using hgoal
  · intro req b hreq
    subst hreq
    simp only [sessionReset]
    rw [if_neg (by simp [hs])]
    split
    · simpa using htouch
    · rename_i t ht
      split
      · simpa using htouch
      · split
        · simpa using htouch
        · rename_i st2 hres
          rw [smReset, if_pos hexiststouch] at hres
          have hsub := (Except.ok.inj hres).symm
          subst hsub
          have hgoal : (lookupKey (updateKey
              (smTouch st req.sessionId now).sessions req.sessionId
              (fun s => applyReset s now t)) req.sessionId).map
                (·.lastActivity) = some now := by
            rw [lookupKey_updateKey]
            cases hlook : lookupKey (smTouch st req.sessionId now).sessions
                req.sessionId with
            | none => rw [hlook] at htouch; simp at htouch
            | some s =>
              rw [hlook] at htouch
              simp at htouch ⊢
              rw [lastActivity_applyReset _ _ _ htouch]
          simpa using hgoal
  · intro req br
    cases hval : gqlValidateSession st req.sessionId with
    | error e => simp [gqlExecute, hval]
    | ok u =>
      cases u
      by_cases hemp : req.transactionId == ""
      · cases br <;> simp [gqlExecute, hval, hemp]
      · cases htv : tmValidate st.transactions req.transactionId req.sessionId with
        | error e => simp [gqlExecute, hval, hemp, htv]
        | ok u => cases u; cases br <;> simp [gqlExecute, hval, hemp, htv]

/-- C7 (witness): the discipline theorem at a concrete state — ping moves
last_activity to the new instant, execute leaves the state alone. -/
theorem c7_touch_discipline_witness :
    ((lookupKey ((sessionPing ⟨[("s1", defaultSessionState 0)], none, []⟩
        ⟨"s1"⟩ 7 123).2.sessions) "s1").map (·.lastActivity) = some 7) ∧
    (gqlExecute ⟨[("s1", defaultSessionState 0)], none, []⟩
        ⟨"s1", "RETURN 1", [], ""⟩ (.ok [])).2.1 =
      ⟨[("s1", defaultSessionState 0)], none, []⟩ :=
  ⟨(c7_touch_discipline ⟨[("s1", defaultSessionState 0)], none, []⟩ "s1" 7 123
      rfl).1,
    (c7_touch_discipline ⟨[("s1", defaultSessionState 0)], none, []⟩ "s1" 7 123
      rfl).2.2.2 ⟨"s1", "RETURN 1", [], ""⟩ (.ok [])⟩

/-- C8 (counterexample): the common control-plane translation maps a
capacity Session error to NOT_FOUND, not RESOURCE_EXHAUSTED — there is no
substring refinement in GqlError::to_grpc_status. -/
theorem c8_capacity_error_not_refined :
    (GqlError.session "session limit reached").toGrpcStatus =
      ⟨.notFound, "session limit reached"⟩ ∧
    (GqlError.session "session limit reached").toGrpcStatus.code ≠
      GrpcCode.resourceExhausted :=
  ⟨rfl, by decide⟩

/-- C8 (amended): GqlError::to_grpc_status maps every Session error to
NOT_FOUND with no message inspection; the substring refinement lives
elsewhere — the database-service map_error sends "already exists" to
ALREADY_EXISTS and "not found" to NOT_FOUND with an INVALID_ARGUMENT
fallback, and a handshake whose registry registration fails returns
RESOURCE_EXHAUSTED through an explicit branch (after cascading the
backend close_session), not through substring matching. -/
theorem c8_session_error_translation (m : String) :
    (GqlError.session m).toGrpcStatus = ⟨.notFound, m⟩ ∧
    (strContains m "already exists" = true →
      dbMapError (.session m) = ⟨.alreadyExists, m⟩) ∧
    (strContains m "already exists" = false →
      strContains m "not found" = true →
      dbMapError (.session m) = ⟨.notFound, m⟩) ∧
    (strContains m "already exists" = false →
      strContains m "not found" = false →
      dbMapError (.session m) = ⟨.invalidArgument, m⟩) ∧
    (∀ (st : ServerState) (req : HandshakeRequest)
      (handle version : String) (now mx : Nat),
      st.maxSessions = some mx → mx ≤ st.sessions.length →
      sessionHandshake st req false (.ok ()) (.ok handle) version now =
        (.error ⟨.resourceExhausted,
            (GqlError.session "session limit reached").to_string⟩, st,
          [.createSessionCall, .closeSessionCall handle])) := by
  refine ⟨rfl, ?_, ?_, ?_, ?_⟩
  · intro h
    simp [dbMapError, h]
  · intro h1 h2
    simp [dbMapError, h1, h2]
  · intro h1 h2
    simp [dbMapError, h1, h2]
  · intro st req handle version now mx hmx hlen
    have hreg : smRegister st handle now = .error (.session "session limit reached") := by
      simp [smRegister, hmx, hlen]
    simp [sessionHandshake, hreg, GqlError.to_string]

/-- C8 (witness): the translation at concrete inputs — the capacity message
through the common table, the database-service refinements, and a full
handshake against a registry at capacity. -/
theorem c8_session_error_translation_witness :
    (GqlError.session "database g already exists").toGrpcStatus =
      ⟨.notFound, "database g already exists"⟩ ∧
    dbMapError (.session "database g already exists") =
      ⟨.alreadyExists, "database g already exists"⟩ ∧
    sessionHandshake ⟨[("s1", defaultSessionState 0)], some 1, []⟩
        ⟨1, false, []⟩ false (.ok ()) (.ok "s2") "0.1.0" 5 =
      (.error ⟨.resourceExhausted,
          (GqlError.session "session limit reached").to_string⟩,
        ⟨[("s1", defaultSessionState 0)], some 1, []⟩,
        [.createSessionCall, .closeSessionCall "s2"]) :=
  ⟨(c8_session_error_translation "database g already exists").1,
    (c8_session_error_translation "database g already exists").2.1 (by decide),
    (c8_session_error_translation "session limit reached").2.2.2.2
      ⟨[("s1", defaultSessionState 0)], some 1, []⟩ ⟨1, false, []⟩ "s2" "0.1.0" 5 1
      rfl (by decide)⟩

/-- C9 (counterexample): the 5-character code 04000 satisfies none of the
five classifiers — its class 04 is numeric, below 08 and not one of
00/01/02/03 — so "exactly one classifier holds" fails. -/
theorem c9_class04_no_classifier :
    is_success "04000".data = false ∧ is_warning "04000".data = false ∧
    is_no_data "04000".data = false ∧ is_informational "04000".data = false ∧
    is_exception "04000".data = false ∧ classifierCount "04000".data = 0 := by
  decide

/-- C9 (amended): on every code of at least two characters, at most one of
the five classifiers holds; exactly one holds precisely when the leading
character is alphabetic, or the two-character class is lexicographically at
least 08, or it is one of 00, 01, 02, 03 — the numeric classes 04 through
07 (and any class below 08 other than 00-03) satisfy no classifier. -/
theorem c9_classifier_partition (c0 c1 : Char) (rest : List Char) :
    classifierCount (c0 :: c1 :: rest) ≤ 1 ∧
    (classifierCount (c0 :: c1 :: rest) = 1 ↔
      (c0.isAlpha = true ∨ '0' < c0 ∨ (c0 = '0' ∧ '8' ≤ c1) ∨
        (c0 = '0' ∧ (c1 = '0' ∨ c1 = '1' ∨ c1 = '2' ∨ c1 = '3')))) := by
  have hclass : statusClass (c0 :: c1 :: rest) = [c0, c1] := by
    rw [statusClass, if_pos (by simp)]
    simp [List.take]
  have hsucc : is_success (c0 :: c1 :: rest) = (c0 == '0' && c1 == '0') := by
    rw [is_success, hclass]
    show (c0 == '0' && (c1 == '0' && true)) = (c0 == '0' && c1 == '0')
    rw [Bool.and_true]
  have hwarn : is_warning (c0 :: c1 :: rest) = (c0 == '0' && c1 == '1') := by
    rw [is_warning, hclass]
    show (c0 == '0' && (c1 == '1' && true)) = (c0 == '0' && c1 == '1')
    rw [Bool.and_true]
  have hnod : is_no_data (c0 :: c1 :: rest) = (c0 == '0' && c1 == '2') := by
    rw [is_no_data, hclass]
    show (c0 == '0' && (c1 == '2' && true)) = (c0 == '0' && c1 == '2')
    rw [Bool.and_true]
  have hinf : is_informational (c0 :: c1 :: rest) = (c0 == '0' && c1 == '3') := by
    rw [is_informational, hclass]
    show (c0 == '0' && (c1 == '3' && true)) = (c0 == '0' && c1 == '3')
    rw [Bool.and_true]
  have hexc : is_exception (c0 :: c1 :: rest) =
      (if c0.isAlpha then true
        else decide ('0' < c0) || (c0 == '0' && decide ('8' ≤ c1))) := by
    simp only [is_exception, hclass]
  by_cases hA : c0.isAlpha = true
  · have h0 : (c0 == '0') = false := beq_eq_false_iff_ne.mpr
      (fun h => absurd (h ▸ hA) (by decide))
    have hcount : classifierCount (c0 :: c1 :: rest) = 1 := by
      simp [classifierCount, hsucc, hwarn, hnod, hinf, hexc, hA, h0]
    rw [hcount]
    exact ⟨Nat.le_refl 1, iff_of_true rfl (Or.inl hA)⟩
  · have hA' : c0.isAlpha = false := by simpa using hA
    by_cases h0 : c0 = '0'
    · subst h0
      by_cases h8 : '8' ≤ c1
      · have hc0 : (c1 == '0') = false := beq_eq_false_iff_ne.mpr
          (fun h => absurd (h ▸ h8) (by decide))
        have hc1 : (c1 == '1') = false := beq_eq_false_iff_ne.mpr
          (fun h => absurd (h ▸ h8) (by decide))
        have hc2 : (c1 == '2') = false := beq_eq_false_iff_ne.mpr
          (fun h => absurd (h ▸ h8) (by decide))
        have hc3 : (c1 == '3') = false := beq_eq_false_iff_ne.mpr
          (fun h => absurd (h ▸ h8) (by decide))
        have hcount : classifierCount ('0' :: c1 :: rest) = 1 := by
          simp [classifierCount, hsucc, hwarn, hnod, hinf, hexc, hA',
            hc0, hc1, hc2, hc3, h8]
        rw [hcount]
        exact ⟨Nat.le_refl 1,
          iff_of_true rfl (Or.inr (Or.inr (Or.inl ⟨rfl, h8⟩)))⟩
      · by_cases hc0 : c1 = '0'
        · subst hc0
          have hcount : classifierCount ('0' :: '0' :: rest) = 1 := by
            simp [classifierCount, hsucc, hwarn, hnod, hinf, hexc]
          rw [hcount]
          exact ⟨Nat.le_refl 1,
            iff_of_true rfl (Or.inr (Or.inr (Or.inr ⟨rfl, Or.inl rfl⟩)))⟩
        · by_cases hc1 : c1 = '1'
          · subst hc1
            have hcount : classifierCount ('0' :: '1' :: rest) = 1 := by
              simp [classifierCount, hsucc, hwarn, hnod, hinf, hexc]
            rw [hcount]
            exact ⟨Nat.le_refl 1,
              iff_of_true rfl (Or.inr (Or.inr (Or.inr ⟨rfl, Or.inr (Or.inl rfl)⟩)))⟩
          · by_cases hc2 : c1 = '2'
            · subst hc2
              have hcount : classifierCount ('0' :: '2' :: rest) = 1 := by
                simp [classifierCount, hsucc, hwarn, hnod, hinf, hexc]
              rw [hcount]
              exact ⟨Nat.le_refl 1, iff_of_true rfl
                (Or.inr (Or.inr (Or.inr ⟨rfl, Or.inr (Or.inr (Or.inl rfl))⟩)))⟩
            · by_cases hc3 : c1 = '3'
              · subst hc3
                have hcount : classifierCount ('0' :: '3' :: rest) = 1 := by
                  simp [classifierCount, hsucc, hwarn, hnod, hinf, hexc]
                rw [hcount]
                exact ⟨Nat.le_refl 1, iff_of_true rfl
                  (Or.inr (Or.inr (Or.inr ⟨rfl, Or.inr (Or.inr (Or.inr rfl))⟩)))⟩
              · have hb0 : (c1 == '0') = false := beq_eq_false_iff_ne.mpr hc0
                have hb1 : (c1 == '1') = false := beq_eq_false_iff_ne.mpr hc1
                have hb2 : (c1 == '2') = false := beq_eq_false_iff_ne.mpr hc2
                have hb3 : (c1 == '3') = false := beq_eq_false_iff_ne.mpr hc3
                have hcount : classifierCount ('0' :: c1 :: rest) = 0 := by
                  simp [classifierCount, hsucc, hwarn, hnod, hinf, hexc,
                    hb0, hb1, hb2, hb3, h8]
                rw [hcount]
                refine ⟨Nat.zero_le 1, iff_of_false (by omega) ?_⟩
                rintro (h | h | ⟨-, h⟩ | ⟨-, h | h | h | h⟩)
                · exact absurd h (by decide)
                · exact absurd h (by decide)
                · exact h8 h
                · exact hc0 h
                · exact hc1 h
                · exact hc2 h
                · exact hc3 h
    · have hb : (c0 == '0') = false := beq_eq_false_iff_ne.mpr h0
      by_cases hlt : '0' < c0
      · have hcount : classifierCount (c0 :: c1 :: rest) = 1 := by
          simp [classifierCount, hsucc, hwarn, hnod, hinf, hexc, hA', hb, hlt]
        rw [hcount]
        exact ⟨Nat.le_refl 1, iff_of_true rfl (Or.inr (Or.inl hlt))⟩
      · have hcount : classifierCount (c0 :: c1 :: rest) = 0 := by
          simp [classifierCount, hsucc, hwarn, hnod, hinf, hexc, hA', hb, hlt]
        rw [hcount]
        refine ⟨Nat.zero_le 1, iff_of_false (by omega) ?_⟩
        rintro (h | h | ⟨h, -⟩ | ⟨h, -⟩)
        · exact hA h
        · exact hlt h
        · exact h0 h
        · exact h0 h

/-- C9 (witness): the partition theorem evaluated at the exception code
42001 (class 42): exactly one classifier accepts it. -/
theorem c9_classifier_partition_witness :
    classifierCount ('4' :: '2' :: ['0', '0', '1']) ≤ 1 ∧
    (classifierCount ('4' :: '2' :: ['0', '0', '1']) = 1 ↔
      (Char.isAlpha '4' = true ∨ '0' < '4' ∨ ('4' = '0' ∧ '8' ≤ '2') ∨
        ('4' = '0' ∧ ('2' = '0' ∨ '2' = '1' ∨ '2' = '2' ∨ '2' = '3')))) :=
  c9_classifier_partition '4' '2' ['0', '0', '1']

/-- C10: the client Transaction's commit marks the committed flag as soon
as its RPC returns, before the response status is inspected, so even a
commit that fails on an exception-class status counts as consumed and its
drop fires no rollback; across any terminal call, the drop-time rollback
fires exactly when no commit or rollback RPC completed. -/
theorem c10_client_drop_rollback_iff_no_rpc (sessionId id : String)
    (resp : CommitResponse) (call : TerminalCall) :
    (clientCommit (freshClientTransaction sessionId id) (.ok resp)).1.committed =
      true ∧
    dropFiresRollback
      (clientCommit (freshClientTransaction sessionId id) (.ok resp)).1 = false ∧
    dropFiresRollback (runTerminal (freshClientTransaction sessionId id) call) =
      !(rpcCompleted call) := by
  have hcommit : ∀ r : CommitResponse,
      (clientCommit (freshClientTransaction sessionId id) (.ok r)).1 =
        { freshClientTransaction sessionId id with committed := true } := by
    intro r
    cases hst : r.status with
    | none => simp [clientCommit, hst]
    | some s =>
        by_cases hex : is_exception s.code.data = true
        · simp [clientCommit, hst, hex]
        · simp [clientCommit, hst, hex]
  have hrollback : ∀ r : RollbackResponse,
      (clientRollback (freshClientTransaction sessionId id) (.ok r)).1 =
        { freshClientTransaction sessionId id with rolledBack := true } := by
    intro r
    cases hst : r.status with
    | none => simp [clientRollback, freshClientTransaction, hst]
    | some s =>
        by_cases hex : is_exception s.code.data = true
        · simp [clientRollback, freshClientTransaction, hst, hex]
        · simp [clientRollback, freshClientTransaction, hst, hex]
  refine ⟨by rw [hcommit resp], by rw [hcommit resp]; rfl, ?_⟩
  cases call with
  | noCall => rfl
  | commitCall rpc =>
      cases rpc with
      | error st => rfl
      | ok r => simp [runTerminal, rpcCompleted, hcommit r, dropFiresRollback]
  | rollbackCall rpc =>
      cases rpc with
      | error st => rfl
      | ok r => simp [runTerminal, rpcCompleted, hrollback r, dropFiresRollback]

end Gwp
